import Mathlib

/-!
Shallow embedding of the Hotel SaaS backend's booking lifecycle and invoice
computation engine (app/services/booking_service.py, app/services/room_service.py,
app/models/models.py).  Monetary values are modelled as rationals, timestamps as
integers (seconds).  Fallible service methods return `Except Err`; a raised
HTTP exception in the source happens before any committed write, so an error
result leaves the database value unchanged.
-/

/-- Error taxonomy from app/utils/errors.py (the subset raised by the core). -/
inductive Err
  | notFound
  | conflict
  | badRequest
deriving DecidableEq, Repr

/-- Room row (app/models/models.py, class Room). -/
structure Room where
  number : Nat
  room_type : String := "Standard"
  occupied : Bool := false
  current_guest_id : Option Nat := none
  rate_per_night : ℚ := 1000
  created_at : ℤ := 0
  updated_at : Option ℤ := none
deriving DecidableEq, Repr

/-- Guest row (app/models/models.py, class Guest; only the fields the booking
core reads or writes). -/
structure Guest where
  id : Nat
  name : String := ""
  last_seen : Option ℤ := none
  updated_at : Option ℤ := none
deriving DecidableEq, Repr

/-- Booking row (app/models/models.py, class Booking). -/
structure Booking where
  id : Nat
  guest_id : Nat
  room_number : Nat
  checkin_at : ℤ := 0
  checkout_at : Option ℤ := none
  price : Option ℚ := none
  invoice_path : Option String := none
  subtotal : Option ℚ := none
  tax_total : Option ℚ := none
  discount_total : Option ℚ := none
  grand_total : Option ℚ := none
  created_at : ℤ := 0
  updated_at : Option ℤ := none
deriving DecidableEq, Repr

/-- Invoice line item row (app/models/models.py, class InvoiceLineItem). -/
structure InvoiceLineItem where
  id : Nat
  booking_id : Nat
  description : String := ""
  quantity : ℚ := 1
  unit_price : ℚ
  amount : ℚ
  item_type : String := "room"
  created_at : ℤ := 0
  updated_at : Option ℤ := none
deriving DecidableEq, Repr

/-- Invoice tax row (app/models/models.py, class InvoiceTax). -/
structure InvoiceTax where
  id : Nat
  booking_id : Nat
  name : String := ""
  rate : ℚ
  amount : ℚ
  created_at : ℤ := 0
  updated_at : Option ℤ := none
deriving DecidableEq, Repr

/-- Invoice discount row (app/models/models.py, class InvoiceDiscount). -/
structure InvoiceDiscount where
  id : Nat
  booking_id : Nat
  name : String := ""
  amount : ℚ
  percentage : Option ℚ := none
  created_at : ℤ := 0
  updated_at : Option ℤ := none
deriving DecidableEq, Repr

/-- The persisted store: one list per table plus a surrogate-id counter. -/
structure DB where
  rooms : List Room := []
  guests : List Guest := []
  bookings : List Booking := []
  lineItems : List InvoiceLineItem := []
  taxes : List InvoiceTax := []
  discounts : List InvoiceDiscount := []
  next_id : Nat := 1
deriving DecidableEq, Repr

/-- Python truthiness of an optional float (`None` and `0.0` are falsy). -/
def truthyQ : Option ℚ → Bool
  | none => false
  | some v => !(v == 0)

/-- Python `x or d` on an optional float: `None` and `0.0` fall through to `d`. -/
def pyOrQ (x : Option ℚ) (d : ℚ) : ℚ :=
  match x with
  | some v => if v == 0 then d else v
  | none => d

/-- Python `d or 1` on an integer day count (`0` is falsy). -/
def pyOrInt (d : ℤ) : ℤ := if d == 0 then 1 else d

/-- `timedelta.days`: floor of the elapsed seconds over one day. -/
def daysBetween (t1 t2 : ℤ) : ℤ := Int.fdiv (t2 - t1) 86400

-- Table lookups and updates (session.get / session.exec(select...where) / session.add).

def findRoom (db : DB) (n : Nat) : Option Room :=
  db.rooms.find? (fun r => r.number == n)

def setRoom (db : DB) (r : Room) : DB :=
  { db with rooms := db.rooms.map (fun x => if x.number == r.number then r else x) }

def findGuest (db : DB) (gid : Nat) : Option Guest :=
  db.guests.find? (fun g => g.id == gid)

def setGuest (db : DB) (g : Guest) : DB :=
  { db with guests := db.guests.map (fun x => if x.id == g.id then g else x) }

def findBooking (db : DB) (bid : Nat) : Option Booking :=
  db.bookings.find? (fun b => b.id == bid)

def setBooking (db : DB) (b : Booking) : DB :=
  { db with bookings := db.bookings.map (fun x => if x.id == b.id then b else x) }

def findLineItem (db : DB) (item_id : Nat) : Option InvoiceLineItem :=
  db.lineItems.find? (fun i => i.id == item_id)

def findTax (db : DB) (tax_id : Nat) : Option InvoiceTax :=
  db.taxes.find? (fun t => t.id == tax_id)

def findDiscount (db : DB) (discount_id : Nat) : Option InvoiceDiscount :=
  db.discounts.find? (fun d => d.id == discount_id)

/-- `get_line_items`: all line items of one booking. -/
def lineItemsOf (db : DB) (bid : Nat) : List InvoiceLineItem :=
  db.lineItems.filter (fun i => i.booking_id == bid)

/-- `get_taxes`: all taxes of one booking. -/
def taxesOf (db : DB) (bid : Nat) : List InvoiceTax :=
  db.taxes.filter (fun t => t.booking_id == bid)

/-- `get_discounts`: all discounts of one booking. -/
def discountsOf (db : DB) (bid : Nat) : List InvoiceDiscount :=
  db.discounts.filter (fun d => d.booking_id == bid)

def sumItemAmounts (l : List InvoiceLineItem) : ℚ :=
  (l.map (fun i => i.amount)).sum

def sumTaxAmounts (l : List InvoiceTax) : ℚ :=
  (l.map (fun t => t.amount)).sum

def sumDiscountAmounts (l : List InvoiceDiscount) : ℚ :=
  (l.map (fun d => d.amount)).sum

/-- The rewrite applied to each tax row during recalculation:
`tax.amount = subtotal * (tax.rate / 100)`. -/
def taxRecalc (s : ℚ) (t : InvoiceTax) : InvoiceTax :=
  { t with amount := s * (t.rate / 100) }

/-- The rewrite applied to each discount row during recalculation: a
percentage-based discount gets `amount = subtotal * (percentage / 100)`, a
fixed discount is left untouched. -/
def discountRecalc (s : ℚ) (d : InvoiceDiscount) : InvoiceDiscount :=
  match d.percentage with
  | some p => { d with amount := s * (p / 100) }
  | none => d

/-- `BookingService.recalculate_booking_totals` (booking_service.py:586). -/
def recalculate_booking_totals (db : DB) (booking_id : Nat) (now : ℤ) :
    Except Err DB :=
  match findBooking db booking_id with
  | none => .error .notFound
  | some booking =>
    let subtotal := sumItemAmounts (lineItemsOf db booking_id)
    let taxes2 := db.taxes.map
      (fun t => if t.booking_id == booking_id then taxRecalc subtotal t else t)
    let tax_total := sumTaxAmounts (taxes2.filter (fun t => t.booking_id == booking_id))
    let discounts2 := db.discounts.map
      (fun d => if d.booking_id == booking_id then discountRecalc subtotal d else d)
    let discount_total :=
      sumDiscountAmounts (discounts2.filter (fun d => d.booking_id == booking_id))
    let grand_total := subtotal + tax_total - discount_total
    let booking2 :=
      { booking with
          subtotal := some subtotal
          tax_total := some tax_total
          discount_total := some discount_total
          grand_total := some grand_total
          updated_at := some now }
    .ok (setBooking { db with taxes := taxes2, discounts := discounts2 } booking2)

-- Generic list lemmas used to reason about row updates.

/-- Replacing, in place, every element satisfying `p` by a fixed `r` that also
satisfies `p` commutes with `find? p`. -/
theorem find?_map_replace {α : Type} (p : α → Bool) (r : α) (hr : p r = true) :
    ∀ l : List α,
      (l.map (fun x => if p x then r else x)).find? p = (l.find? p).map (fun _ => r)
  | [] => rfl
  | a :: l => by
    by_cases ha : p a = true
    · simp [List.find?_cons, ha, hr]
    · have ha' : p a = false := by simp_all
      simp [List.find?_cons, ha', find?_map_replace p r hr l]

/-- A map that fixes every element satisfying `q` and preserves `q` commutes
with `find? q`. -/
theorem find?_map_fix {α : Type} (g : α → α) (q : α → Bool)
    (h1 : ∀ a, q (g a) = q a) (h2 : ∀ a, q a = true → g a = a) :
    ∀ l : List α, (l.map g).find? q = l.find? q
  | [] => rfl
  | a :: l => by
    by_cases ha : q a = true
    · simp [List.find?_cons, h1 a, ha, h2 a ha]
    · have ha' : q a = false := by simp_all
      simp [List.find?_cons, h1 a, ha', find?_map_fix g q h1 h2 l]

/-- Updating every element satisfying `p` by a `p`-preserving `f` commutes with
`filter p`. -/
theorem filter_map_ite {α : Type} (p : α → Bool) (f : α → α)
    (hf : ∀ a, p (f a) = p a) :
    ∀ l : List α,
      (l.map (fun x => if p x then f x else x)).filter p = (l.filter p).map f
  | [] => rfl
  | a :: l => by
    by_cases ha : p a = true
    · simp [List.filter_cons, ha, hf a, filter_map_ite p f hf l]
    · have ha' : p a = false := by simp_all
      simp [List.filter_cons, ha', filter_map_ite p f hf l]

/-- A map that fixes every element satisfying `q` and preserves `q` commutes
with `filter q`. -/
theorem filter_map_fix {α : Type} (g : α → α) (q : α → Bool)
    (h1 : ∀ a, q (g a) = q a) (h2 : ∀ a, q a = true → g a = a) :
    ∀ l : List α, (l.map g).filter q = l.filter q
  | [] => rfl
  | a :: l => by
    by_cases ha : q a = true
    · simp [List.filter_cons, h1 a, ha, h2 a ha, filter_map_fix g q h1 h2 l]
    · have ha' : q a = false := by simp_all
      simp [List.filter_cons, h1 a, ha', filter_map_fix g q h1 h2 l]

/-- `find?` returns the head of the filtered list. -/
theorem find?_eq_head_filter {α : Type} (p : α → Bool) :
    ∀ l : List α, l.find? p = (l.filter p).head?
  | [] => rfl
  | a :: l => by
    by_cases ha : p a = true
    · simp [List.find?_cons, List.filter_cons, ha]
    · have ha' : p a = false := by simp_all
      rw [List.find?_cons, ha', List.filter_cons, ha']
      simp only [Bool.false_eq_true, if_false]
      exact find?_eq_head_filter p l

/-- Two filters on the same list commute. -/
theorem filter_comm' {α : Type} (p q : α → Bool) :
    ∀ l : List α, (l.filter p).filter q = (l.filter q).filter p
  | [] => rfl
  | a :: l => by
    by_cases hp : p a = true <;> by_cases hq : q a = true <;>
      simp_all [List.filter_cons, filter_comm' p q l]

-- Lookup/update interaction lemmas for the keyed tables.

/-- Looking up the key just written by `setBooking` returns the new row,
provided the key was present. -/
theorem findBooking_setBooking_self (db : DB) (b : Booking) (bid : Nat)
    (hid : b.id = bid) (hex : (findBooking db bid).isSome = true) :
    findBooking (setBooking db b) bid = some b := by
  subst hid
  unfold findBooking setBooking at *
  rw [find?_map_replace (fun x => x.id == b.id) b (by simp)]
  cases hf : db.bookings.find? (fun x => x.id == b.id) with
  | none => rw [hf] at hex; simp at hex
  | some x => simp

/-- `setBooking` with a different key does not change a lookup. -/
theorem findBooking_setBooking_other (db : DB) (b : Booking) (bid : Nat)
    (hne : b.id ≠ bid) :
    findBooking (setBooking db b) bid = findBooking db bid := by
  unfold findBooking setBooking
  exact find?_map_fix _ _
    (fun a => by
      by_cases ha : (a.id == b.id) = true
      · have : a.id = b.id := by simpa using ha
        simp [ha, this]
      · simp [ha])
    (fun a hqa => by
      have : a.id = bid := by simpa using hqa
      have : (a.id == b.id) = false := by simp [this]; omega
      simp [this])
    db.bookings

/-- Looking up the key just written by `setRoom` returns the new row,
provided the key was present. -/
theorem findRoom_setRoom_self (db : DB) (r : Room) (n : Nat)
    (hid : r.number = n) (hex : (findRoom db n).isSome = true) :
    findRoom (setRoom db r) n = some r := by
  subst hid
  unfold findRoom setRoom at *
  rw [find?_map_replace (fun x => x.number == r.number) r (by simp)]
  cases hf : db.rooms.find? (fun x => x.number == r.number) with
  | none => rw [hf] at hex; simp at hex
  | some x => simp

/-- `setRoom` with a different key does not change a lookup. -/
theorem findRoom_setRoom_other (db : DB) (r : Room) (n : Nat)
    (hne : r.number ≠ n) :
    findRoom (setRoom db r) n = findRoom db n := by
  unfold findRoom setRoom
  exact find?_map_fix _ _
    (fun a => by
      by_cases ha : (a.number == r.number) = true
      · have : a.number = r.number := by simpa using ha
        simp [ha, this]
      · simp [ha])
    (fun a hqa => by
      have : a.number = n := by simpa using hqa
      have : (a.number == r.number) = false := by simp [this]; omega
      simp [this])
    db.rooms

-- Closed forms for the three totals written by a recalculation.

/-- Subtotal written by `recalculate_booking_totals`. -/
def recalcSubtotal (db : DB) (bid : Nat) : ℚ :=
  sumItemAmounts (lineItemsOf db bid)

/-- Tax total written by `recalculate_booking_totals` (same filter-of-map
shape as the code). -/
def recalcTaxTotal (db : DB) (bid : Nat) : ℚ :=
  sumTaxAmounts ((db.taxes.map
    (fun t => if t.booking_id == bid then taxRecalc (recalcSubtotal db bid) t else t)).filter
      (fun t => t.booking_id == bid))

/-- Discount total written by `recalculate_booking_totals` (same filter-of-map
shape as the code). -/
def recalcDiscountTotal (db : DB) (bid : Nat) : ℚ :=
  sumDiscountAmounts ((db.discounts.map
    (fun d => if d.booking_id == bid then discountRecalc (recalcSubtotal db bid) d else d)).filter
      (fun d => d.booking_id == bid))

/-- The tax total is the sum over the rewritten tax rows of the booking. -/
theorem recalcTaxTotal_eq (db : DB) (bid : Nat) :
    recalcTaxTotal db bid =
      sumTaxAmounts ((taxesOf db bid).map (taxRecalc (recalcSubtotal db bid))) := by
  unfold recalcTaxTotal
  rw [filter_map_ite (fun t => t.booking_id == bid)
    (taxRecalc (recalcSubtotal db bid)) (fun a => by simp [taxRecalc]) db.taxes]
  rfl

/-- The discount total is the sum over the rewritten discount rows of the
booking. -/
theorem recalcDiscountTotal_eq (db : DB) (bid : Nat) :
    recalcDiscountTotal db bid =
      sumDiscountAmounts ((discountsOf db bid).map (discountRecalc (recalcSubtotal db bid))) := by
  unfold recalcDiscountTotal
  rw [filter_map_ite (fun d => d.booking_id == bid)
    (discountRecalc (recalcSubtotal db bid))
    (fun a => by cases hp : a.percentage <;> simp [discountRecalc, hp]) db.discounts]
  rfl

/-- Full characterisation of a successful `recalculate_booking_totals`:
which tables are untouched, how the booking's tax and discount rows are
rewritten, and the four totals stored on the booking row. -/
theorem recalculate_spec (db db' : DB) (bid : Nat) (now : ℤ)
    (h : recalculate_booking_totals db bid now = .ok db') :
    db'.rooms = db.rooms ∧ db'.guests = db.guests ∧
    db'.lineItems = db.lineItems ∧ db'.next_id = db.next_id ∧
    taxesOf db' bid = (taxesOf db bid).map (taxRecalc (recalcSubtotal db bid)) ∧
    discountsOf db' bid =
      (discountsOf db bid).map (discountRecalc (recalcSubtotal db bid)) ∧
    ∃ b, findBooking db bid = some b ∧
      findBooking db' bid = some { b with
        subtotal := some (recalcSubtotal db bid)
        tax_total := some (recalcTaxTotal db bid)
        discount_total := some (recalcDiscountTotal db bid)
        grand_total := some (recalcSubtotal db bid + recalcTaxTotal db bid -
          recalcDiscountTotal db bid)
        updated_at := some now } := by
  unfold recalculate_booking_totals at h
  cases hb : findBooking db bid with
  | none => rw [hb] at h; exact absurd h (by simp)
  | some b =>
    rw [hb] at h
    simp only [Except.ok.injEq] at h
    subst h
    have hb2 : db.bookings.find? (fun x => x.id == bid) = some b := hb
    have hbid : b.id = bid := by
      have hpb := List.find?_some hb2
      simpa using hpb
    refine ⟨rfl, rfl, rfl, rfl, ?_, ?_, b, rfl, ?_⟩
    · exact filter_map_ite (fun t => t.booking_id == bid)
        (taxRecalc (recalcSubtotal db bid)) (fun a => by simp [taxRecalc]) db.taxes
    · exact filter_map_ite (fun d => d.booking_id == bid)
        (discountRecalc (recalcSubtotal db bid))
        (fun a => by cases hp : a.percentage <;> simp [discountRecalc, hp]) db.discounts
    · apply findBooking_setBooking_self
      · exact hbid
      · show (findBooking db bid).isSome = true
        rw [hb]
        rfl

/-- C1: immediately after any recalculation of a booking's totals, the stored
subtotal equals the sum of `amount` over that booking's current line items,
and the stored grand_total equals exactly subtotal + tax_total -
discount_total. -/
theorem recalc_totals_consistent (db db' : DB) (bid : Nat) (now : ℤ)
    (h : recalculate_booking_totals db bid now = .ok db') :
    ∃ b, findBooking db' bid = some b ∧
      b.subtotal = some (sumItemAmounts (lineItemsOf db' bid)) ∧
      ∃ s t d, b.subtotal = some s ∧ b.tax_total = some t ∧
        b.discount_total = some d ∧ b.grand_total = some (s + t - d) := by
  obtain ⟨-, -, hitems, -, -, -, b, hb, hb'⟩ := recalculate_spec db db' bid now h
  refine ⟨_, hb', ?_, _, _, _, rfl, rfl, rfl, rfl⟩
  show some (recalcSubtotal db bid) = some (sumItemAmounts (lineItemsOf db' bid))
  unfold lineItemsOf
  rw [hitems]
  rfl

/-- A concrete store: one occupied room, one guest, one active booking with a
room line item, one 18% tax row and one 10% discount row plus a fixed
discount row. -/
def dbBase : DB :=
  { rooms := [{ number := 101, occupied := true, current_guest_id := some 1 }],
    guests := [{ id := 1, name := "Asha" }],
    bookings := [{ id := 1, guest_id := 1, room_number := 101, checkin_at := 0,
                   price := some 1000, subtotal := some 1000, grand_total := some 1000 }],
    lineItems := [{ id := 1, booking_id := 1, description := "Standard Room - 101",
                    unit_price := 1000, amount := 1000 }],
    taxes := [{ id := 1, booking_id := 1, name := "GST", rate := 18, amount := 180 }],
    discounts := [{ id := 1, booking_id := 1, name := "Loyalty", amount := 100,
                    percentage := some 10 },
                  { id := 2, booking_id := 1, name := "Promo", amount := 50 }],
    next_id := 2 }

/-- The store obtained by recalculating booking 1 of `dbBase`. -/
def dbBaseRecalc : DB :=
  ((recalculate_booking_totals dbBase 1 7).toOption).getD dbBase

theorem recalc_totals_consistent_witness :
    recalculate_booking_totals dbBase 1 7 = Except.ok dbBaseRecalc ∧
    (∃ b, findBooking dbBaseRecalc 1 = some b ∧
      b.subtotal = some (sumItemAmounts (lineItemsOf dbBaseRecalc 1)) ∧
      ∃ s t d, b.subtotal = some s ∧ b.tax_total = some t ∧
        b.discount_total = some d ∧ b.grand_total = some (s + t - d)) :=
  ⟨by rfl, recalc_totals_consistent dbBase dbBaseRecalc 1 7 (by rfl)⟩

/-- C2: every recalculation rewrites every tax row of the booking to the
current subtotal times rate over 100 and every percentage-based discount row
to the current subtotal times percentage over 100, leaves fixed-amount
discounts untouched, and stores tax_total and discount_total as the sums of
the resulting amounts. -/
theorem recalc_rewrites_tax_discount_rows (db db' : DB) (bid : Nat) (now : ℤ)
    (h : recalculate_booking_totals db bid now = .ok db') :
    taxesOf db' bid = (taxesOf db bid).map (taxRecalc (recalcSubtotal db bid)) ∧
    discountsOf db' bid =
      (discountsOf db bid).map (discountRecalc (recalcSubtotal db bid)) ∧
    (∀ d0, d0 ∈ discountsOf db bid → d0.percentage = none →
      d0 ∈ discountsOf db' bid) ∧
    ∃ b, findBooking db' bid = some b ∧
      b.tax_total = some (sumTaxAmounts (taxesOf db' bid)) ∧
      b.discount_total = some (sumDiscountAmounts (discountsOf db' bid)) := by
  obtain ⟨-, -, -, -, htax, hdisc, b, hb, hb'⟩ := recalculate_spec db db' bid now h
  refine ⟨htax, hdisc, ?_, _, hb', ?_, ?_⟩
  · intro d0 hmem hnone
    have hfix : discountRecalc (recalcSubtotal db bid) d0 = d0 := by
      simp [discountRecalc, hnone]
    have h2 := List.mem_map_of_mem (discountRecalc (recalcSubtotal db bid)) hmem
    rw [hfix] at h2
    rw [hdisc]
    exact h2
  · show some (recalcTaxTotal db bid) = _
    rw [recalcTaxTotal_eq, htax]
  · show some (recalcDiscountTotal db bid) = _
    rw [recalcDiscountTotal_eq, hdisc]

theorem recalc_rewrites_tax_discount_rows_witness :
    recalculate_booking_totals dbBase 1 7 = Except.ok dbBaseRecalc ∧
    (taxesOf dbBaseRecalc 1 =
      (taxesOf dbBase 1).map (taxRecalc (recalcSubtotal dbBase 1)) ∧
    discountsOf dbBaseRecalc 1 =
      (discountsOf dbBase 1).map (discountRecalc (recalcSubtotal dbBase 1)) ∧
    (∀ d0, d0 ∈ discountsOf dbBase 1 → d0.percentage = none →
      d0 ∈ discountsOf dbBaseRecalc 1) ∧
    ∃ b, findBooking dbBaseRecalc 1 = some b ∧
      b.tax_total = some (sumTaxAmounts (taxesOf dbBaseRecalc 1)) ∧
      b.discount_total = some (sumDiscountAmounts (discountsOf dbBaseRecalc 1))) :=
  ⟨by rfl, recalc_rewrites_tax_discount_rows dbBase dbBaseRecalc 1 7 (by rfl)⟩

-- Room Registry operations (app/services/room_service.py).

/-- Payload of `RoomUpdate` (app/schemas/schemas.py): every field optional,
`exclude_unset` semantics — only provided fields are written. -/
structure RoomUpdate where
  room_type : Option String := none
  occupied : Option Bool := none
  current_guest_id : Option Nat := none
  rate_per_night : Option ℚ := none

/-- `RoomService.create_room` (room_service.py:14). -/
def create_room (db : DB) (number : Nat) (room_type : String) (rate : ℚ)
    (now : ℤ) : Except Err DB :=
  if (db.rooms.find? (fun r => r.number == number)).isSome then .error .conflict
  else .ok { db with rooms := db.rooms ++
    [{ number := number, room_type := room_type, rate_per_night := rate,
       occupied := false, created_at := now }] }

/-- `RoomService.update_room` (room_service.py:86): `setattr` for each
provided field, no invariant check. -/
def update_room (db : DB) (n : Nat) (upd : RoomUpdate) (now : ℤ) :
    Except Err DB :=
  match findRoom db n with
  | none => .error .notFound
  | some room =>
    let room2 := { room with
      room_type := upd.room_type.getD room.room_type
      occupied := upd.occupied.getD room.occupied
      current_guest_id := match upd.current_guest_id with
        | some g => some g
        | none => room.current_guest_id
      rate_per_night := upd.rate_per_night.getD room.rate_per_night
      updated_at := some now }
    .ok (setRoom db room2)

/-- `RoomService.delete_room` (room_service.py:105). -/
def delete_room (db : DB) (n : Nat) : Except Err DB :=
  match findRoom db n with
  | none => .error .notFound
  | some room =>
    if room.occupied then .error .conflict
    else .ok { db with rooms := db.rooms.filter (fun r => !(r.number == n)) }

/-- `RoomService.occupy_room` (room_service.py:119). -/
def occupy_room (db : DB) (n : Nat) (guest_id : Nat) (now : ℤ) :
    Except Err DB :=
  match findRoom db n with
  | none => .error .notFound
  | some room =>
    if room.occupied then .error .conflict
    else .ok (setRoom db { room with
      occupied := true
      current_guest_id := some guest_id
      updated_at := some now })

/-- `RoomService.vacate_room` (room_service.py:140). -/
def vacate_room (db : DB) (n : Nat) (now : ℤ) : Except Err DB :=
  match findRoom db n with
  | none => .error .notFound
  | some room =>
    if !room.occupied then .error .conflict
    else .ok (setRoom db { room with
      occupied := false
      current_guest_id := none
      updated_at := some now })

/-- `BookingService.create_booking` (booking_service.py:19).  The stored price
is `booking_data.price or room.rate_per_night` — Python `or`, so both `None`
and `0.0` fall back to the room rate. -/
def create_booking (db : DB) (guest_id room_number : Nat) (price : Option ℚ)
    (now : ℤ) : Except Err (DB × Booking) :=
  match findGuest db guest_id with
  | none => .error .notFound
  | some guest =>
    match findRoom db room_number with
    | none => .error .notFound
    | some room =>
      if room.occupied then .error .conflict
      else
        let bprice := pyOrQ price room.rate_per_night
        let booking : Booking :=
          { id := db.next_id, guest_id := guest_id, room_number := room_number,
            checkin_at := now, checkout_at := none, price := some bprice,
            subtotal := some bprice, tax_total := none, discount_total := none,
            grand_total := some bprice, created_at := now, updated_at := none }
        let room2 := { room with
          occupied := true, current_guest_id := some guest_id, updated_at := some now }
        let guest2 := { guest with last_seen := some now, updated_at := some now }
        let item : InvoiceLineItem :=
          { id := db.next_id + 1, booking_id := booking.id,
            description := room.room_type ++ " Room - " ++ toString room.number,
            quantity := 1, unit_price := bprice, amount := bprice,
            item_type := "room", created_at := now }
        let db2 := setGuest (setRoom db room2) guest2
        .ok ({ db2 with
                 bookings := db2.bookings ++ [booking]
                 lineItems := db2.lineItems ++ [item]
                 next_id := db.next_id + 2 }, booking)

/-- Looking up the key just written by `setGuest` returns the new row,
provided the key was present. -/
theorem findGuest_setGuest_self (db : DB) (g : Guest) (gid : Nat)
    (hid : g.id = gid) (hex : (findGuest db gid).isSome = true) :
    findGuest (setGuest db g) gid = some g := by
  subst hid
  unfold findGuest setGuest at *
  rw [find?_map_replace (fun x => x.id == g.id) g (by simp)]
  cases hf : db.guests.find? (fun x => x.id == g.id) with
  | none => rw [hf] at hex; simp at hex
  | some x => simp

/-- `find?` skips a prefix in which it fails. -/
theorem find?_append_none {α : Type} (p : α → Bool) :
    ∀ l1 l2 : List α, l1.find? p = none → (l1 ++ l2).find? p = l2.find? p
  | [], l2, _ => rfl
  | a :: l1, l2, h => by
    rw [List.find?_cons] at h
    by_cases ha : p a = true
    · rw [ha] at h; exact absurd h (by simp)
    · have ha' : p a = false := by simp_all
      rw [ha'] at h
      rw [List.cons_append, List.find?_cons, ha']
      exact find?_append_none p l1 l2 h

/-- Appending a fresh matching element: `find?` returns it. -/
theorem find?_append_singleton {α : Type} (p : α → Bool) (l : List α) (a : α)
    (h : l.find? p = none) (ha : p a = true) : (l ++ [a]).find? p = some a := by
  rw [find?_append_none p l [a] h, List.find?_cons, ha]

/-- Appending a fresh matching element: `filter` keeps exactly it. -/
theorem filter_append_singleton {α : Type} (p : α → Bool) (l : List α) (a : α)
    (h : l.filter p = []) (ha : p a = true) : (l ++ [a]).filter p = [a] := by
  rw [List.filter_append, h, List.filter_cons, ha]
  rfl

/-- A minimal store for exercising `create_booking`: one vacant room 101 at
rate 1000 and one guest with id 1. -/
def dbVacant : DB :=
  { rooms := [{ number := 101 }], guests := [{ id := 1, name := "Asha" }],
    next_id := 1 }

/-- C3 counterexample: `create_booking` with a supplied price of 0 stores the
room's nightly rate 1000, not the supplied 0 — Python `or` treats `0.0` as
unset, refuting "price = optionalPrice if supplied". -/
theorem create_booking_zero_price_cex :
    ∃ db' bk, create_booking dbVacant 1 101 (some 0) 5 = .ok (db', bk) ∧
      bk.price = some 1000 ∧ ¬ ((1000 : ℚ) = 0) := by
  exact ⟨_, _, rfl, rfl, by norm_num⟩

/-- C3 (amended): create(guestId, roomNumber, optionalPrice) fails with
NotFoundError when the guest does not exist, fails with ConflictError when the
room is occupied, and on success marks the room occupied by the guest, creates
a booking with checkin_at = now and price = optionalPrice when supplied and
non-zero, else the room's nightly rate (Python `or`), inserts exactly one
"room" line item with quantity 1 and amount = price, sets subtotal =
grand_total = price, updates the guest's last_seen, and returns the booking. -/
theorem create_booking_spec (db : DB) (gid rn : Nat) (optPrice : Option ℚ)
    (now : ℤ) :
    (findGuest db gid = none →
      create_booking db gid rn optPrice now = .error .notFound) ∧
    (∀ g room, findGuest db gid = some g → findRoom db rn = some room →
      room.occupied = true →
      create_booking db gid rn optPrice now = .error .conflict) ∧
    (∀ g room, findGuest db gid = some g → findRoom db rn = some room →
      room.occupied = false →
      findBooking db db.next_id = none →
      lineItemsOf db db.next_id = [] →
      ∃ db' bk, create_booking db gid rn optPrice now = .ok (db', bk) ∧
        bk.price = some (pyOrQ optPrice room.rate_per_night) ∧
        (∀ p, optPrice = some p → ¬ (p = 0) → bk.price = some p) ∧
        (optPrice = none → bk.price = some room.rate_per_night) ∧
        bk.guest_id = gid ∧ bk.room_number = rn ∧
        bk.checkin_at = now ∧ bk.checkout_at = none ∧
        bk.subtotal = bk.price ∧ bk.grand_total = bk.price ∧
        findBooking db' bk.id = some bk ∧
        (∃ room2, findRoom db' rn = some room2 ∧ room2.occupied = true ∧
          room2.current_guest_id = some gid) ∧
        (∃ g2, findGuest db' gid = some g2 ∧ g2.last_seen = some now) ∧
        (∃ item, lineItemsOf db' bk.id = [item] ∧ item.item_type = "room" ∧
          item.quantity = 1 ∧
          item.amount = pyOrQ optPrice room.rate_per_night)) := by
  refine ⟨?_, ?_, ?_⟩
  · intro hg
    unfold create_booking
    rw [hg]
  · intro g room hg hroom hocc
    unfold create_booking
    rw [hg, hroom]
    simp [hocc]
  · intro g room hg hroom hocc hfreshB hfreshI
    have hg2 : db.guests.find? (fun x => x.id == gid) = some g := hg
    have hgid : g.id = gid := by
      have := List.find?_some hg2
      simpa using this
    have hroom2 : db.rooms.find? (fun x => x.number == rn) = some room := hroom
    have hrn : room.number = rn := by
      have := List.find?_some hroom2
      simpa using this
    have hexg : (findGuest db gid).isSome = true := by rw [hg]; rfl
    have hexr : (findRoom db rn).isSome = true := by rw [hroom]; rfl
    unfold create_booking
    rw [hg, hroom]
    simp only [hocc, Bool.false_eq_true, if_false]
    refine ⟨_, _, rfl, rfl, ?_, ?_, rfl, rfl, rfl, rfl, rfl, rfl, ?_, ?_, ?_, ?_⟩
    · intro p hp hpz
      subst hp
      have hpz2 : (p == 0) = false := by simpa using hpz
      show some (if (p == 0) = true then room.rate_per_night else p) = some p
      rw [hpz2]
      simp
    · intro hp
      subst hp
      rfl
    · exact find?_append_singleton _ _ _ hfreshB (by simp)
    · exact ⟨_, findRoom_setRoom_self _ _ _ hrn hexr, rfl, rfl⟩
    · exact ⟨_, findGuest_setGuest_self _ _ _ hgid hexg, rfl⟩
    · exact ⟨_, filter_append_singleton _ _ _ hfreshI (by simp), rfl, rfl, rfl⟩

theorem create_booking_spec_witness :
    ∃ db' bk, create_booking dbVacant 1 101 (some 1200) 5 = .ok (db', bk) ∧
      bk.price = some 1200 ∧ bk.subtotal = bk.price ∧ bk.grand_total = bk.price ∧
      findBooking db' bk.id = some bk ∧
      (∃ room2, findRoom db' 101 = some room2 ∧ room2.occupied = true ∧
        room2.current_guest_id = some 1) ∧
      (∃ item, lineItemsOf db' bk.id = [item] ∧ item.item_type = "room" ∧
        item.quantity = 1 ∧ item.amount = pyOrQ (some 1200) 1000) := by
  obtain ⟨-, -, h3⟩ := create_booking_spec dbVacant 1 101 (some 1200) 5
  obtain ⟨db', bk, hcreate, hprice, hps, -, -, -, -, -, hsub, hgrand, hfind,
    hroomst, -, hitem⟩ :=
    h3 { id := 1, name := "Asha" } { number := 101 } rfl rfl rfl rfl rfl
  exact ⟨db', bk, hcreate, hps 1200 rfl (by norm_num), hsub, hgrand, hfind,
    hroomst, hitem⟩

/-- C7: attempting to create a booking for an already-occupied room (the
guest existing) fails with ConflictError.  In this embedding an error result
carries no store, and in the source the raise happens before any write, so
the store is unchanged: no booking row, no line item, and the room keeps all
its field values. -/
theorem create_booking_occupied_conflict (db : DB) (gid rn : Nat)
    (optPrice : Option ℚ) (now : ℤ) (g : Guest) (room : Room)
    (hg : findGuest db gid = some g) (hroom : findRoom db rn = some room)
    (hocc : room.occupied = true) :
    create_booking db gid rn optPrice now = .error .conflict := by
  unfold create_booking
  rw [hg, hroom]
  simp [hocc]

/-- A store with room 101 occupied by guest 2; guest 1 also exists. -/
def dbOcc : DB :=
  { rooms := [{ number := 101, occupied := true, current_guest_id := some 2 }],
    guests := [{ id := 1, name := "Asha" }, { id := 2, name := "Ben" }],
    next_id := 3 }

theorem create_booking_occupied_conflict_witness :
    findRoom dbOcc 101 =
      some { number := 101, occupied := true, current_guest_id := some 2 } ∧
    create_booking dbOcc 1 101 none 9 = .error .conflict :=
  ⟨rfl, create_booking_occupied_conflict dbOcc 1 101 none 9
    { id := 1, name := "Asha" } { number := 101, occupied := true, current_guest_id := some 2 }
    rfl rfl rfl⟩

-- Remaining booking-lifecycle operations.

/-- Payload of `BookingUpdate` (app/schemas/schemas.py:184): optional
checkout_at and price, `exclude_unset` semantics. -/
structure BookingUpdate where
  checkout_at : Option ℤ := none
  price : Option ℚ := none

/-- The `booking.checkout_at = checkout_time; booking.updated_at = ...`
writes of checkout (booking_service.py:219). -/
def checkoutStamp (booking : Booking) (now : ℤ) : Booking :=
  { booking with checkout_at := some now, updated_at := some now }

/-- The room-line-item update of checkout (booking_service.py:226): the first
"room"-type item of the booking, if any, gets `quantity = duration` and
`amount = unit_price * duration`. -/
def checkoutRoomItem (db : DB) (booking_id : Nat) (duration : ℤ) (now : ℤ) :
    DB :=
  match (lineItemsOf db booking_id).find? (fun i => i.item_type == "room") with
  | some it =>
    let it2 := { it with
      quantity := (duration : ℚ)
      amount := it.unit_price * (duration : ℚ)
      updated_at := some now }
    { db with lineItems := db.lineItems.map (fun x => if x.id == it.id then it2 else x) }
  | none => db

/-- `BookingService.checkout_booking` (booking_service.py:202).  Note the
source assigns `booking.checkout_at` before vacating the room and updating
the room line item; `duration = (checkout_time - checkin_at).days or 1`. -/
def checkout_booking (db : DB) (booking_id : Nat) (now : ℤ) : Except Err DB :=
  match findBooking db booking_id with
  | none => .error .notFound
  | some booking =>
    if booking.checkout_at.isSome then .error .conflict
    else
      let duration := pyOrInt (daysBetween booking.checkin_at now)
      match findRoom db booking.room_number with
      | none => .error .notFound
      | some _room =>
        let db1 := setBooking db (checkoutStamp booking now)
        match vacate_room db1 booking.room_number now with
        | .error e => .error e
        | .ok db2 =>
          recalculate_booking_totals (checkoutRoomItem db2 booking_id duration now)
            booking_id now

/-- `BookingService.update_booking` (booking_service.py:147).  The `setattr`
loop writes the provided fields onto the booking first; the subsequent
`if booking_data.checkout_at and not booking.checkout_at` therefore tests the
value just assigned.  The branch body follows the source; its
`booking.checkout_at - booking.checkin_at` would need a set checkout_at, so
the embedding reads it with `getD 0` (the branch is unreachable anyway). -/
def update_booking (db : DB) (booking_id : Nat) (upd : BookingUpdate) (now : ℤ) :
    Except Err (DB × Booking) :=
  match findBooking db booking_id with
  | none => .error .notFound
  | some booking =>
    let booking1 := { booking with
      checkout_at := match upd.checkout_at with
        | some t => some t
        | none => booking.checkout_at
      price := match upd.price with
        | some p => some p
        | none => booking.price }
    if upd.checkout_at.isSome && !booking1.checkout_at.isSome then
      match vacate_room db booking1.room_number now with
      | .error e => .error e
      | .ok dbv =>
        if !truthyQ upd.price && !truthyQ booking1.price then
          match findRoom dbv booking1.room_number with
          | none => .error .notFound
          | some room =>
            let dur := pyOrInt (daysBetween booking1.checkin_at (booking1.checkout_at.getD 0))
            let booking3 := { booking1 with
              price := some (room.rate_per_night * (dur : ℚ))
              updated_at := some now }
            .ok (setBooking dbv booking3, booking3)
        else
          let booking3 := { booking1 with updated_at := some now }
          .ok (setBooking dbv booking3, booking3)
    else
      let booking3 := { booking1 with updated_at := some now }
      .ok (setBooking db booking3, booking3)

/-- `BookingService.remove_invoice_item` (booking_service.py:288).  The item
is fetched by id alone; only the *passed* booking's checkout status guards
the "room" protection, and only the passed booking is recalculated. -/
def remove_invoice_item (db : DB) (booking_id item_id : Nat) (now : ℤ) :
    Except Err DB :=
  match findLineItem db item_id with
  | none => .error .notFound
  | some line_item =>
    match findBooking db booking_id with
    | none => .error .notFound
    | some booking =>
      if line_item.item_type == "room" && !booking.checkout_at.isSome then
        .error .badRequest
      else
        let db1 := { db with
          lineItems := db.lineItems.filter (fun x => !(x.id == item_id)) }
        recalculate_booking_totals db1 booking_id now

/-- `BookingService.delete_line_item` (booking_service.py:338): same guard,
but the booking id is taken from the item itself. -/
def delete_line_item (db : DB) (line_item_id : Nat) (now : ℤ) : Except Err DB :=
  match findLineItem db line_item_id with
  | none => .error .notFound
  | some line_item =>
    match findBooking db line_item.booking_id with
    | none => .error .notFound
    | some booking =>
      if line_item.item_type == "room" && !booking.checkout_at.isSome then
        .error .badRequest
      else
        let db1 := { db with
          lineItems := db.lineItems.filter (fun x => !(x.id == line_item_id)) }
        recalculate_booking_totals db1 line_item.booking_id now

/-- `BookingService.remove_tax` (booking_service.py:411): no ownership check;
recalculates the *passed* booking id. -/
def remove_tax (db : DB) (booking_id tax_id : Nat) (now : ℤ) : Except Err DB :=
  match findTax db tax_id with
  | none => .error .notFound
  | some _tax =>
    let db1 := { db with taxes := db.taxes.filter (fun x => !(x.id == tax_id)) }
    recalculate_booking_totals db1 booking_id now

/-- `BookingService.remove_discount` (booking_service.py:513): no ownership
check; recalculates the *passed* booking id. -/
def remove_discount (db : DB) (booking_id discount_id : Nat) (now : ℤ) :
    Except Err DB :=
  match findDiscount db discount_id with
  | none => .error .notFound
  | some _discount =>
    let db1 := { db with
      discounts := db.discounts.filter (fun x => !(x.id == discount_id)) }
    recalculate_booking_totals db1 booking_id now

/-- `BookingService.add_line_item` (booking_service.py:308). -/
def add_line_item (db : DB) (booking_id : Nat) (description : String)
    (quantity unit_price : ℚ) (item_type : String) (now : ℤ) :
    Except Err (DB × InvoiceLineItem) :=
  match findBooking db booking_id with
  | none => .error .notFound
  | some _booking =>
    let item : InvoiceLineItem :=
      { id := db.next_id, booking_id := booking_id, description := description,
        quantity := quantity, unit_price := unit_price,
        amount := quantity * unit_price, item_type := item_type,
        created_at := now }
    let db1 :=
      { db with lineItems := db.lineItems ++ [item], next_id := db.next_id + 1 }
    match recalculate_booking_totals db1 booking_id now with
    | .error e => .error e
    | .ok db2 => .ok (db2, item)

/-- `BookingService.add_tax` (booking_service.py:426, the later definition in
the class body, which is the one Python keeps). -/
def add_tax (db : DB) (booking_id : Nat) (name : String) (rate : ℚ)
    (now : ℤ) : Except Err (DB × InvoiceTax) :=
  match findBooking db booking_id with
  | none => .error .notFound
  | some booking =>
    match (if truthyQ booking.subtotal then Except.ok db
           else recalculate_booking_totals db booking_id now) with
    | .error e => .error e
    | .ok db1 =>
      match findBooking db1 booking_id with
      | none => .error .notFound
      | some booking1 =>
        let tax_amount := (booking1.subtotal.getD 0) * (rate / 100)
        let tax : InvoiceTax :=
          { id := db1.next_id, booking_id := booking_id, name := name,
            rate := rate, amount := tax_amount, created_at := now }
        let db2 :=
          { db1 with taxes := db1.taxes ++ [tax], next_id := db1.next_id + 1 }
        match recalculate_booking_totals db2 booking_id now with
        | .error e => .error e
        | .ok db3 => .ok (db3, tax)

/-- `BookingService.add_discount` (booking_service.py:528, the later
definition in the class body).  `discount_amount = amount or 0` for a fixed
discount, `subtotal * (percentage / 100)` for a percentage one. -/
def add_discount (db : DB) (booking_id : Nat) (name : String)
    (amount percentage : Option ℚ) (now : ℤ) :
    Except Err (DB × InvoiceDiscount) :=
  if amount.isNone && percentage.isNone then .error .badRequest
  else
    match findBooking db booking_id with
    | none => .error .notFound
    | some booking =>
      match (if truthyQ booking.subtotal then Except.ok db
             else recalculate_booking_totals db booking_id now) with
      | .error e => .error e
      | .ok db1 =>
        match findBooking db1 booking_id with
        | none => .error .notFound
        | some booking1 =>
          let discount_amount := match percentage with
            | some p => (booking1.subtotal.getD 0) * (p / 100)
            | none => amount.getD 0
          let discount : InvoiceDiscount :=
            { id := db1.next_id, booking_id := booking_id, name := name,
              amount := discount_amount, percentage := percentage,
              created_at := now }
          let db2 :=
            { db1 with discounts := db1.discounts ++ [discount], next_id := db1.next_id + 1 }
          match recalculate_booking_totals db2 booking_id now with
          | .error e => .error e
          | .ok db3 => .ok (db3, discount)

/-- `BookingService.delete_booking` (booking_service.py:245): best-effort
vacate for an active booking (a vacate failure is swallowed), then cascade
deletion of line items, taxes, discounts, and the booking row. -/
def delete_booking (db : DB) (booking_id : Nat) (now : ℤ) : Except Err DB :=
  match findBooking db booking_id with
  | none => .error .notFound
  | some booking =>
    let db1 :=
      if booking.checkout_at.isNone then
        match vacate_room db booking.room_number now with
        | .ok d => d
        | .error _ => db
      else db
    let db2 := { db1 with
      lineItems := db1.lineItems.filter (fun i => !(i.booking_id == booking_id))
      taxes := db1.taxes.filter (fun t => !(t.booking_id == booking_id))
      discounts := db1.discounts.filter (fun d => !(d.booking_id == booking_id)) }
    .ok { db2 with bookings := db2.bookings.filter (fun b => !(b.id == booking_id)) }

/-- After deleting every `p`-element, `find? p` fails. -/
theorem find?_filter_not {α : Type} (p : α → Bool) :
    ∀ l : List α, (l.filter (fun x => !(p x))).find? p = none
  | [] => rfl
  | a :: l => by
    by_cases ha : p a = true
    · simp [List.filter_cons, ha, find?_filter_not p l]
    · have ha' : p a = false := by simp_all
      simp [List.filter_cons, ha', List.find?_cons, find?_filter_not p l]

/-- C10: for an active booking, `update_booking` with a checkout_at value
sets the booking's checkout_at but leaves the rooms table, every line item,
and all four monetary totals unchanged: the vacate-and-reprice branch is
unreachable because checkout_at is assigned to the booking before the branch
tests whether it was previously unset. -/
theorem update_booking_checkout_branch_dead (db : DB) (bid : Nat) (t : ℤ)
    (pr : Option ℚ) (now : ℤ) (b : Booking)
    (hb : findBooking db bid = some b) (hactive : b.checkout_at = none) :
    ∃ db' b',
      update_booking db bid { checkout_at := some t, price := pr } now = .ok (db', b') ∧
      b'.checkout_at = some t ∧
      db'.rooms = db.rooms ∧
      db'.lineItems = db.lineItems ∧
      db'.taxes = db.taxes ∧
      db'.discounts = db.discounts ∧
      findBooking db' bid = some b' ∧
      b'.subtotal = b.subtotal ∧ b'.tax_total = b.tax_total ∧
      b'.discount_total = b.discount_total ∧ b'.grand_total = b.grand_total := by
  have hb2 : db.bookings.find? (fun x => x.id == bid) = some b := hb
  have hbid : b.id = bid := by
    have := List.find?_some hb2
    simpa using this
  have hex : (findBooking db bid).isSome = true := by rw [hb]; rfl
  unfold update_booking
  rw [hb]
  refine ⟨_, _, rfl, rfl, rfl, rfl, rfl, rfl, ?_, rfl, rfl, rfl, rfl⟩
  exact findBooking_setBooking_self _ _ _ hbid hex

theorem update_booking_checkout_branch_dead_witness :
    ∃ db' b',
      update_booking dbBase 1 { checkout_at := some 99 } 100 = .ok (db', b') ∧
      b'.checkout_at = some 99 ∧
      db'.rooms = dbBase.rooms ∧
      db'.lineItems = dbBase.lineItems ∧
      db'.taxes = dbBase.taxes ∧
      db'.discounts = dbBase.discounts ∧
      findBooking db' 1 = some b' ∧
      b'.subtotal = some 1000 ∧ b'.tax_total = none ∧
      b'.discount_total = none ∧ b'.grand_total = some 1000 :=
  update_booking_checkout_branch_dead dbBase 1 99 none 100
    { id := 1, guest_id := 1, room_number := 101, checkin_at := 0,
      price := some 1000, subtotal := some 1000, grand_total := some 1000 }
    rfl rfl

/-- C8: removing the protected "room"-type line item from a booking that is
still active fails with BadRequestError (the raise precedes every write, so
no state changes); for a checked-out booking, or a non-"room" item, removal
succeeds, deletes the item, and recalculates the totals. -/
theorem remove_invoice_item_spec (db : DB) (bid item_id : Nat) (now : ℤ) :
    (∀ it b, findLineItem db item_id = some it → findBooking db bid = some b →
      it.item_type = "room" → b.checkout_at = none →
      remove_invoice_item db bid item_id now = .error .badRequest) ∧
    (∀ it b, findLineItem db item_id = some it → findBooking db bid = some b →
      (¬ (it.item_type = "room") ∨ b.checkout_at ≠ none) →
      ∃ db', remove_invoice_item db bid item_id now = .ok db' ∧
        findLineItem db' item_id = none ∧
        ∃ b', findBooking db' bid = some b' ∧
          b'.subtotal = some (sumItemAmounts (lineItemsOf db' bid)) ∧
          ∃ s t d, b'.subtotal = some s ∧ b'.tax_total = some t ∧
            b'.discount_total = some d ∧ b'.grand_total = some (s + t - d)) := by
  constructor
  · intro it b hit hb htype hactive
    unfold remove_invoice_item
    rw [hit, hb]
    simp [htype, hactive]
  · intro it b hit hb hor
    have hcond : (it.item_type == "room" && !b.checkout_at.isSome) = false := by
      rcases hor with htype | hco
      · simp [htype]
      · cases hc : b.checkout_at with
        | none => exact absurd hc hco
        | some v => simp [hc]
    obtain ⟨db', hdb'⟩ : ∃ db',
        recalculate_booking_totals
          { db with lineItems := db.lineItems.filter (fun x => !(x.id == item_id)) }
          bid now = .ok db' := by
      unfold recalculate_booking_totals
      rw [show findBooking
        { db with lineItems := db.lineItems.filter (fun x => !(x.id == item_id)) }
        bid = some b from hb]
      exact ⟨_, rfl⟩
    obtain ⟨-, -, hitems, -, -, -, b0, hb0, hb0'⟩ :=
      recalculate_spec _ db' bid now hdb'
    refine ⟨db', ?_, ?_, ?_⟩
    · unfold remove_invoice_item
      rw [hit, hb]
      simp only [hcond, Bool.false_eq_true, if_false]
      exact hdb'
    · show db'.lineItems.find? (fun i => i.id == item_id) = none
      rw [hitems]
      exact find?_filter_not _ db.lineItems
    · refine ⟨_, hb0', ?_, _, _, _, rfl, rfl, rfl, rfl⟩
      show some (recalcSubtotal _ bid) = some (sumItemAmounts (lineItemsOf db' bid))
      unfold lineItemsOf
      rw [hitems]
      rfl

/-- A concrete store with a removable "service" item alongside the room item. -/
def dbC8 : DB :=
  { dbBase with lineItems := dbBase.lineItems ++
      [{ id := 2, booking_id := 1, description := "Soda", quantity := 2,
         unit_price := 5, amount := 10, item_type := "service" }] }

theorem remove_invoice_item_spec_witness :
    remove_invoice_item dbC8 1 1 50 = .error .badRequest ∧
    (∃ db', remove_invoice_item dbC8 1 2 50 = .ok db' ∧
      findLineItem db' 2 = none ∧
      ∃ b', findBooking db' 1 = some b' ∧
        b'.subtotal = some (sumItemAmounts (lineItemsOf db' 1)) ∧
        ∃ s t d, b'.subtotal = some s ∧ b'.tax_total = some t ∧
          b'.discount_total = some d ∧ b'.grand_total = some (s + t - d)) := by
  constructor
  · exact (remove_invoice_item_spec dbC8 1 1 50).1
      { id := 1, booking_id := 1, description := "Standard Room - 101",
        unit_price := 1000, amount := 1000 }
      { id := 1, guest_id := 1, room_number := 101, checkin_at := 0,
        price := some 1000, subtotal := some 1000, grand_total := some 1000 }
      rfl rfl rfl rfl
  · exact (remove_invoice_item_spec dbC8 1 2 50).2
      { id := 2, booking_id := 1, description := "Soda", quantity := 2,
        unit_price := 5, amount := 10, item_type := "service" }
      { id := 1, guest_id := 1, room_number := 101, checkin_at := 0,
        price := some 1000, subtotal := some 1000, grand_total := some 1000 }
      rfl rfl (Or.inl (by decide))

-- Lemmas about sums after deleting a uniquely-identified row.

/-- If nothing in `l` satisfies `p`, filtering out the `p`-elements is the
identity. -/
theorem filter_not_of_filter_nil {α : Type} (p : α → Bool) :
    ∀ l : List α, l.filter p = [] → l.filter (fun x => !(p x)) = l
  | [], _ => rfl
  | a :: l, h => by
    by_cases ha : p a = true
    · rw [List.filter_cons, ha] at h
      simp at h
    · have ha' : p a = false := by simp_all
      rw [List.filter_cons, ha'] at h
      rw [List.filter_cons, ha']
      simp [filter_not_of_filter_nil p l h]

/-- Deleting the unique `p`-element subtracts its value from the mapped sum. -/
theorem sum_map_remove {α : Type} (f : α → ℚ) (p : α → Bool) (it : α) :
    ∀ l : List α, l.filter p = [it] →
      ((l.filter (fun x => !(p x))).map f).sum = (l.map f).sum - f it
  | [], h => by simp at h
  | a :: l, h => by
    by_cases ha : p a = true
    · rw [List.filter_cons, ha] at h
      simp only [if_true] at h
      have ha2 : a = it := by
        have := List.cons.injEq a (l.filter p) it []
        rw [h.symm] at this
        exact (List.cons.inj h).1
      have hrest : l.filter p = [] := (List.cons.inj h).2
      rw [List.filter_cons, ha]
      simp only [Bool.not_true, Bool.false_eq_true, if_false]
      rw [filter_not_of_filter_nil p l hrest, ha2]
      simp [add_comm]
    · have ha' : p a = false := by simp_all
      rw [List.filter_cons, ha'] at h
      rw [List.filter_cons, ha']
      simp only [Bool.not_false, if_true, List.map_cons, List.sum_cons]
      rw [sum_map_remove f p it l h]
      ring
  termination_by l => l.length

/-- `find?` over a structure-preserving map stays `none`. -/
theorem find?_map_none {α : Type} (g : α → α) (q : α → Bool)
    (h1 : ∀ a, q (g a) = q a) :
    ∀ l : List α, l.find? q = none → (l.map g).find? q = none
  | [], _ => rfl
  | a :: l, h => by
    rw [List.find?_cons] at h
    by_cases ha : q a = true
    · rw [ha] at h; exact absurd h (by simp)
    · have ha' : q a = false := by simp_all
      rw [ha'] at h
      rw [List.map_cons, List.find?_cons, h1 a, ha']
      exact find?_map_none g q h1 l h

/-- Frame lemma for `recalculate_booking_totals`: the full rewritten tax and
discount tables, and the untouched rows of every other booking. -/
theorem recalculate_frame (db db' : DB) (bid : Nat) (now : ℤ)
    (h : recalculate_booking_totals db bid now = .ok db') :
    db'.taxes = db.taxes.map
      (fun t => if t.booking_id == bid then taxRecalc (recalcSubtotal db bid) t else t) ∧
    db'.discounts = db.discounts.map
      (fun d => if d.booking_id == bid then discountRecalc (recalcSubtotal db bid) d else d) ∧
    ∀ q, ¬(q = bid) → findBooking db' q = findBooking db q := by
  unfold recalculate_booking_totals at h
  cases hb : findBooking db bid with
  | none => rw [hb] at h; exact absurd h (by simp)
  | some b =>
    rw [hb] at h
    simp only [Except.ok.injEq] at h
    subst h
    have hb2 : db.bookings.find? (fun x => x.id == bid) = some b := hb
    have hbid : b.id = bid := by
      have := List.find?_some hb2
      simpa using this
    refine ⟨rfl, rfl, ?_⟩
    intro q hq
    have := findBooking_setBooking_other
      { db with
        taxes := db.taxes.map
          (fun t => if t.booking_id == bid then taxRecalc (recalcSubtotal db bid) t else t)
        discounts := db.discounts.map
          (fun d => if d.booking_id == bid then discountRecalc (recalcSubtotal db bid) d else d) }
      { b with
        subtotal := some (recalcSubtotal db bid)
        tax_total := some (recalcTaxTotal db bid)
        discount_total := some (recalcDiscountTotal db bid)
        grand_total := some (recalcSubtotal db bid + recalcTaxTotal db bid -
          recalcDiscountTotal db bid)
        updated_at := some now }
      q
      (by show ¬ (b.id = q); rw [hbid]; exact fun hh => hq hh.symm)
    exact this

/-- The tax rows of any other booking are untouched by a recalculation. -/
theorem taxesOf_recalc_other (db db' : DB) (bid : Nat) (now : ℤ)
    (h : recalculate_booking_totals db bid now = .ok db')
    (q : Nat) (hq : ¬(q = bid)) : taxesOf db' q = taxesOf db q := by
  obtain ⟨ht, -, -⟩ := recalculate_frame db db' bid now h
  unfold taxesOf
  rw [ht]
  refine filter_map_fix _ _ ?_ ?_ db.taxes
  · intro a
    by_cases hab : (a.booking_id == bid) = true <;> simp [hab, taxRecalc]
  · intro a haq
    have : a.booking_id = q := by simpa using haq
    have hfalse : (a.booking_id == bid) = false := by
      rw [this]
      simp
      exact hq
    rw [hfalse]
    simp

/-- The discount rows of any other booking are untouched by a recalculation. -/
theorem discountsOf_recalc_other (db db' : DB) (bid : Nat) (now : ℤ)
    (h : recalculate_booking_totals db bid now = .ok db')
    (q : Nat) (hq : ¬(q = bid)) : discountsOf db' q = discountsOf db q := by
  obtain ⟨-, hd, -⟩ := recalculate_frame db db' bid now h
  unfold discountsOf
  rw [hd]
  refine filter_map_fix _ _ ?_ ?_ db.discounts
  · intro a
    by_cases hab : (a.booking_id == bid) = true <;>
      cases hp : a.percentage <;> simp [hab, discountRecalc, hp]
  · intro a haq
    have : a.booking_id = q := by simpa using haq
    have hfalse : (a.booking_id == bid) = false := by
      rw [this]
      simp
      exact hq
    rw [hfalse]
    simp

/-- A tax id absent before a recalculation is absent after it. -/
theorem findTax_recalc_none (db db' : DB) (bid : Nat) (now : ℤ)
    (h : recalculate_booking_totals db bid now = .ok db')
    (tax_id : Nat) (hnone : findTax db tax_id = none) :
    findTax db' tax_id = none := by
  obtain ⟨ht, -, -⟩ := recalculate_frame db db' bid now h
  unfold findTax
  rw [ht]
  refine find?_map_none _ _ ?_ db.taxes hnone
  intro a
  by_cases hab : (a.booking_id == bid) = true <;> simp [hab, taxRecalc]

/-- A discount id absent before a recalculation is absent after it. -/
theorem findDiscount_recalc_none (db db' : DB) (bid : Nat) (now : ℤ)
    (h : recalculate_booking_totals db bid now = .ok db')
    (discount_id : Nat) (hnone : findDiscount db discount_id = none) :
    findDiscount db' discount_id = none := by
  obtain ⟨-, hd, -⟩ := recalculate_frame db db' bid now h
  unfold findDiscount
  rw [hd]
  refine find?_map_none _ _ ?_ db.discounts hnone
  intro a
  by_cases hab : (a.booking_id == bid) = true <;>
    cases hp : a.percentage <;> simp [hab, discountRecalc, hp]

/-- C9: `remove_invoice_item`, `remove_tax` and `remove_discount` fetch the
row by id alone and never check that it belongs to the passed booking; the
row is deleted anyway and only the passed booking is recalculated, so the
owning booking's stored total (previously in sync, for a row of non-zero
amount) no longer equals the sum over its remaining rows. -/
theorem remove_crossbooking_desync (db : DB) (bid owner : Nat) (now : ℤ) :
    (∀ item_id it b1 b2, findLineItem db item_id = some it →
      db.lineItems.filter (fun x => x.id == item_id) = [it] →
      it.booking_id = owner → ¬(owner = bid) →
      findBooking db bid = some b1 →
      (¬(it.item_type = "room") ∨ b1.checkout_at ≠ none) →
      findBooking db owner = some b2 →
      b2.subtotal = some (sumItemAmounts (lineItemsOf db owner)) →
      ¬(it.amount = 0) →
      ∃ db', remove_invoice_item db bid item_id now = .ok db' ∧
        findLineItem db' item_id = none ∧
        findBooking db' owner = some b2 ∧
        ¬(b2.subtotal = some (sumItemAmounts (lineItemsOf db' owner)))) ∧
    (∀ tax_id tx b1 b2, findTax db tax_id = some tx →
      db.taxes.filter (fun x => x.id == tax_id) = [tx] →
      tx.booking_id = owner → ¬(owner = bid) →
      findBooking db bid = some b1 →
      findBooking db owner = some b2 →
      b2.tax_total = some (sumTaxAmounts (taxesOf db owner)) →
      ¬(tx.amount = 0) →
      ∃ db', remove_tax db bid tax_id now = .ok db' ∧
        findTax db' tax_id = none ∧
        findBooking db' owner = some b2 ∧
        ¬(b2.tax_total = some (sumTaxAmounts (taxesOf db' owner)))) ∧
    (∀ discount_id dc b1 b2, findDiscount db discount_id = some dc →
      db.discounts.filter (fun x => x.id == discount_id) = [dc] →
      dc.booking_id = owner → ¬(owner = bid) →
      findBooking db bid = some b1 →
      findBooking db owner = some b2 →
      b2.discount_total = some (sumDiscountAmounts (discountsOf db owner)) →
      ¬(dc.amount = 0) →
      ∃ db', remove_discount db bid discount_id now = .ok db' ∧
        findDiscount db' discount_id = none ∧
        findBooking db' owner = some b2 ∧
        ¬(b2.discount_total = some (sumDiscountAmounts (discountsOf db' owner)))) := by
  refine ⟨?_, ?_, ?_⟩
  · intro item_id it b1 b2 hit huniq howner hne hb1 hguard hb2 hsync hamt
    have hcond : (it.item_type == "room" && !b1.checkout_at.isSome) = false := by
      rcases hguard with htype | hco
      · simp [htype]
      · cases hc : b1.checkout_at with
        | none => exact absurd hc hco
        | some v => simp [hc]
    obtain ⟨db', hdb'⟩ : ∃ db',
        recalculate_booking_totals
          { db with lineItems := db.lineItems.filter (fun x => !(x.id == item_id)) }
          bid now = .ok db' := by
      unfold recalculate_booking_totals
      rw [show findBooking
        { db with lineItems := db.lineItems.filter (fun x => !(x.id == item_id)) }
        bid = some b1 from hb1]
      exact ⟨_, rfl⟩
    obtain ⟨-, -, hitems, -, -, -, -, -, -⟩ := recalculate_spec _ db' bid now hdb'
    obtain ⟨-, -, hbooks⟩ := recalculate_frame _ db' bid now hdb'
    have howner2 : (lineItemsOf db owner).filter (fun x => x.id == item_id) = [it] := by
      unfold lineItemsOf
      rw [filter_comm', huniq, List.filter_cons,
        show (it.booking_id == owner) = true by rw [howner]; simp]
      rfl
    have hstep : lineItemsOf db' owner =
        (lineItemsOf db owner).filter (fun x => !(x.id == item_id)) := by
      unfold lineItemsOf
      rw [hitems]
      exact filter_comm' _ _ db.lineItems
    have hsum : sumItemAmounts (lineItemsOf db' owner) =
        sumItemAmounts (lineItemsOf db owner) - it.amount := by
      rw [hstep]
      exact sum_map_remove _ _ it (lineItemsOf db owner) howner2
    refine ⟨db', ?_, ?_, ?_, ?_⟩
    · unfold remove_invoice_item
      rw [hit, hb1]
      simp only [hcond, Bool.false_eq_true, if_false]
      exact hdb'
    · show db'.lineItems.find? (fun i => i.id == item_id) = none
      rw [hitems]
      exact find?_filter_not _ db.lineItems
    · rw [hbooks owner hne]
      exact hb2
    · intro heq
      rw [hsum] at heq
      have h2 := Option.some.inj (hsync.symm.trans heq)
      have : it.amount = 0 := by linarith
      exact hamt this
  · intro tax_id tx b1 b2 htx huniq howner hne hb1 hb2 hsync hamt
    obtain ⟨db', hdb'⟩ : ∃ db',
        recalculate_booking_totals
          { db with taxes := db.taxes.filter (fun x => !(x.id == tax_id)) }
          bid now = .ok db' := by
      unfold recalculate_booking_totals
      rw [show findBooking
        { db with taxes := db.taxes.filter (fun x => !(x.id == tax_id)) }
        bid = some b1 from hb1]
      exact ⟨_, rfl⟩
    obtain ⟨-, -, hbooks⟩ := recalculate_frame _ db' bid now hdb'
    have hnone1 : findTax
        { db with taxes := db.taxes.filter (fun x => !(x.id == tax_id)) }
        tax_id = none := by
      show (db.taxes.filter (fun x => !(x.id == tax_id))).find? (fun t => t.id == tax_id) = none
      exact find?_filter_not _ db.taxes
    have howner2 : (taxesOf db owner).filter (fun x => x.id == tax_id) = [tx] := by
      unfold taxesOf
      rw [filter_comm', huniq, List.filter_cons,
        show (tx.booking_id == owner) = true by rw [howner]; simp]
      rfl
    have hstep : taxesOf db' owner =
        (taxesOf db owner).filter (fun x => !(x.id == tax_id)) := by
      rw [taxesOf_recalc_other _ db' bid now hdb' owner hne]
      show ((db.taxes.filter (fun x => !(x.id == tax_id))).filter (fun t => t.booking_id == owner)) = _
      exact filter_comm' _ _ db.taxes
    have hsum : sumTaxAmounts (taxesOf db' owner) =
        sumTaxAmounts (taxesOf db owner) - tx.amount := by
      rw [hstep]
      exact sum_map_remove _ _ tx (taxesOf db owner) howner2
    refine ⟨db', ?_, ?_, ?_, ?_⟩
    · unfold remove_tax
      rw [htx]
      exact hdb'
    · exact findTax_recalc_none _ db' bid now hdb' tax_id hnone1
    · rw [hbooks owner hne]
      exact hb2
    · intro heq
      rw [hsum] at heq
      have h2 := Option.some.inj (hsync.symm.trans heq)
      have : tx.amount = 0 := by linarith
      exact hamt this
  · intro discount_id dc b1 b2 hdc huniq howner hne hb1 hb2 hsync hamt
    obtain ⟨db', hdb'⟩ : ∃ db',
        recalculate_booking_totals
          { db with discounts := db.discounts.filter (fun x => !(x.id == discount_id)) }
          bid now = .ok db' := by
      unfold recalculate_booking_totals
      rw [show findBooking
        { db with discounts := db.discounts.filter (fun x => !(x.id == discount_id)) }
        bid = some b1 from hb1]
      exact ⟨_, rfl⟩
    obtain ⟨-, -, hbooks⟩ := recalculate_frame _ db' bid now hdb'
    have hnone1 : findDiscount
        { db with discounts := db.discounts.filter (fun x => !(x.id == discount_id)) }
        discount_id = none := by
      show (db.discounts.filter (fun x => !(x.id == discount_id))).find?
        (fun d => d.id == discount_id) = none
      exact find?_filter_not _ db.discounts
    have howner2 : (discountsOf db owner).filter (fun x => x.id == discount_id) = [dc] := by
      unfold discountsOf
      rw [filter_comm', huniq, List.filter_cons,
        show (dc.booking_id == owner) = true by rw [howner]; simp]
      rfl
    have hstep : discountsOf db' owner =
        (discountsOf db owner).filter (fun x => !(x.id == discount_id)) := by
      rw [discountsOf_recalc_other _ db' bid now hdb' owner hne]
      show ((db.discounts.filter (fun x => !(x.id == discount_id))).filter
        (fun d => d.booking_id == owner)) = _
      exact filter_comm' _ _ db.discounts
    have hsum : sumDiscountAmounts (discountsOf db' owner) =
        sumDiscountAmounts (discountsOf db owner) - dc.amount := by
      rw [hstep]
      exact sum_map_remove _ _ dc (discountsOf db owner) howner2
    refine ⟨db', ?_, ?_, ?_, ?_⟩
    · unfold remove_discount
      rw [hdc]
      exact hdb'
    · exact findDiscount_recalc_none _ db' bid now hdb' discount_id hnone1
    · rw [hbooks owner hne]
      exact hb2
    · intro heq
      rw [hsum] at heq
      have h2 := Option.some.inj (hsync.symm.trans heq)
      have : dc.amount = 0 := by linarith
      exact hamt this

/-- A store with two active bookings: booking 1 on room 101, booking 2 on
room 102 with one extra service item, one tax and one fixed discount, all of
booking 2's totals in sync. -/
def dbC9 : DB :=
  { rooms := [{ number := 101, occupied := true, current_guest_id := some 1 },
              { number := 102, occupied := true, current_guest_id := some 2 },
              { number := 103 }],
    guests := [{ id := 1, name := "Asha" }, { id := 2, name := "Ben" }],
    bookings := [
      { id := 1, guest_id := 1, room_number := 101, checkin_at := 0,
        price := some 1000, subtotal := some 1000, grand_total := some 1000 },
      { id := 2, guest_id := 2, room_number := 102, checkin_at := 0,
        price := some 500, subtotal := some 600, tax_total := some 60,
        discount_total := some 30, grand_total := some 630 }],
    lineItems := [
      { id := 1, booking_id := 1, unit_price := 1000, amount := 1000 },
      { id := 2, booking_id := 2, unit_price := 500, amount := 500 },
      { id := 3, booking_id := 2, description := "Spa", unit_price := 100,
        amount := 100, item_type := "service" }],
    taxes := [{ id := 1, booking_id := 2, name := "GST", rate := 10, amount := 60 }],
    discounts := [{ id := 1, booking_id := 2, name := "Promo", amount := 30 }],
    next_id := 10 }

/-- Booking 2 of `dbC9`, the owner of the rows removed cross-booking. -/
def bkC9owner : Booking :=
  { id := 2, guest_id := 2, room_number := 102, checkin_at := 0,
    price := some 500, subtotal := some 600, tax_total := some 60,
    discount_total := some 30, grand_total := some 630 }

theorem remove_crossbooking_desync_witness :
    (∃ db', remove_invoice_item dbC9 1 3 9 = .ok db' ∧
      findLineItem db' 3 = none ∧
      findBooking db' 2 = some bkC9owner ∧
      ¬(bkC9owner.subtotal = some (sumItemAmounts (lineItemsOf db' 2)))) ∧
    (∃ db', remove_tax dbC9 1 1 9 = .ok db' ∧
      findTax db' 1 = none ∧
      findBooking db' 2 = some bkC9owner ∧
      ¬(bkC9owner.tax_total = some (sumTaxAmounts (taxesOf db' 2)))) ∧
    (∃ db', remove_discount dbC9 1 1 9 = .ok db' ∧
      findDiscount db' 1 = none ∧
      findBooking db' 2 = some bkC9owner ∧
      ¬(bkC9owner.discount_total = some (sumDiscountAmounts (discountsOf db' 2)))) := by
  obtain ⟨p1, p2, p3⟩ := remove_crossbooking_desync dbC9 1 2 9
  refine ⟨?_, ?_, ?_⟩
  · exact p1 3
      { id := 3, booking_id := 2, description := "Spa", unit_price := 100,
        amount := 100, item_type := "service" }
      { id := 1, guest_id := 1, room_number := 101, checkin_at := 0,
        price := some 1000, subtotal := some 1000, grand_total := some 1000 }
      bkC9owner rfl rfl rfl (by norm_num) rfl (Or.inl (by decide)) rfl
      (by norm_num [bkC9owner, dbC9, lineItemsOf, sumItemAmounts]) (by norm_num)
  · exact p2 1
      { id := 1, booking_id := 2, name := "GST", rate := 10, amount := 60 }
      { id := 1, guest_id := 1, room_number := 101, checkin_at := 0,
        price := some 1000, subtotal := some 1000, grand_total := some 1000 }
      bkC9owner rfl rfl rfl (by norm_num) rfl rfl
      (by norm_num [bkC9owner, dbC9, taxesOf, sumTaxAmounts]) (by norm_num)
  · exact p3 1
      { id := 1, booking_id := 2, name := "Promo", amount := 30 }
      { id := 1, guest_id := 1, room_number := 101, checkin_at := 0,
        price := some 1000, subtotal := some 1000, grand_total := some 1000 }
      bkC9owner rfl rfl rfl (by norm_num) rfl rfl
      (by norm_num [bkC9owner, dbC9, discountsOf, sumDiscountAmounts]) (by norm_num)

/-- `d or 1` on a nonnegative day count is `max 1 d`. -/
theorem pyOrInt_eq_max (d : ℤ) (hd : 0 ≤ d) : pyOrInt d = max 1 d := by
  unfold pyOrInt
  by_cases h : d = 0
  · subst h
    simp
  · rw [if_neg (by simpa using h)]
    exact (max_eq_right (by omega)).symm

/-- Recalculation succeeds whenever the booking exists. -/
theorem recalc_ok_exists (db : DB) (bid : Nat) (now : ℤ)
    (hb : (findBooking db bid).isSome = true) :
    ∃ db', recalculate_booking_totals db bid now = .ok db' := by
  unfold recalculate_booking_totals
  cases h : findBooking db bid with
  | none => rw [h] at hb; simp at hb
  | some b => exact ⟨_, rfl⟩

/-- `checkoutRoomItem` only touches the line-item table. -/
theorem checkoutRoomItem_rooms (db : DB) (bid : Nat) (dur now : ℤ) :
    (checkoutRoomItem db bid dur now).rooms = db.rooms := by
  unfold checkoutRoomItem
  cases (lineItemsOf db bid).find? (fun i => i.item_type == "room") <;> rfl

/-- `checkoutRoomItem` leaves the bookings table unchanged. -/
theorem checkoutRoomItem_bookings (db : DB) (bid : Nat) (dur now : ℤ) :
    (checkoutRoomItem db bid dur now).bookings = db.bookings := by
  unfold checkoutRoomItem
  cases (lineItemsOf db bid).find? (fun i => i.item_type == "room") <;> rfl

/-- `checkoutRoomItem` leaves the tax table unchanged. -/
theorem checkoutRoomItem_taxes (db : DB) (bid : Nat) (dur now : ℤ) :
    (checkoutRoomItem db bid dur now).taxes = db.taxes := by
  unfold checkoutRoomItem
  cases (lineItemsOf db bid).find? (fun i => i.item_type == "room") <;> rfl

/-- `checkoutRoomItem` leaves the discount table unchanged. -/
theorem checkoutRoomItem_discounts (db : DB) (bid : Nat) (dur now : ℤ) :
    (checkoutRoomItem db bid dur now).discounts = db.discounts := by
  unfold checkoutRoomItem
  cases (lineItemsOf db bid).find? (fun i => i.item_type == "room") <;> rfl

/-- C4: checkout fails with ConflictError on a booking whose checkout_at is
already set; otherwise (checkin_at ≤ now, room present and occupied, a
"room" line item present) it vacates the room, rewrites the room line item to
quantity = max(1, whole days between checkin and now) and amount =
unit_price * that duration, recalculates all four totals, and stores
checkout_at = now. -/
theorem checkout_booking_spec (db : DB) (bid : Nat) (now : ℤ) :
    (∀ b, findBooking db bid = some b → b.checkout_at.isSome = true →
      checkout_booking db bid now = .error .conflict) ∧
    (∀ b room it, findBooking db bid = some b → b.checkout_at = none →
      b.checkin_at ≤ now →
      findRoom db b.room_number = some room → room.occupied = true →
      (lineItemsOf db bid).find? (fun i => i.item_type == "room") = some it →
      db.lineItems.find? (fun x => x.id == it.id) = some it →
      ∃ db', checkout_booking db bid now = .ok db' ∧
        (∃ room2, findRoom db' b.room_number = some room2 ∧
          room2.occupied = false ∧ room2.current_guest_id = none) ∧
        (∃ it2, findLineItem db' it.id = some it2 ∧
          it2.quantity = ((max 1 (daysBetween b.checkin_at now) : ℤ) : ℚ) ∧
          it2.amount = it.unit_price * ((max 1 (daysBetween b.checkin_at now) : ℤ) : ℚ)) ∧
        db'.lineItems = db.lineItems.map (fun x => if x.id == it.id then { it with
          quantity := ((max 1 (daysBetween b.checkin_at now) : ℤ) : ℚ)
          amount := it.unit_price * ((max 1 (daysBetween b.checkin_at now) : ℤ) : ℚ)
          updated_at := some now } else x) ∧
        taxesOf db' bid = (taxesOf db bid).map
          (taxRecalc (sumItemAmounts (lineItemsOf db' bid))) ∧
        discountsOf db' bid = (discountsOf db bid).map
          (discountRecalc (sumItemAmounts (lineItemsOf db' bid))) ∧
        (∃ b2, findBooking db' bid = some b2 ∧ b2.checkout_at = some now ∧
          b2.subtotal = some (sumItemAmounts (lineItemsOf db' bid)) ∧
          b2.tax_total = some (sumTaxAmounts (taxesOf db' bid)) ∧
          b2.discount_total = some (sumDiscountAmounts (discountsOf db' bid)) ∧
          ∃ s t d, b2.subtotal = some s ∧ b2.tax_total = some t ∧
            b2.discount_total = some d ∧ b2.grand_total = some (s + t - d))) := by
  constructor
  · intro b hb hco
    unfold checkout_booking
    rw [hb]
    simp [hco]
  · intro b room it hb hactive hle hroom hocc hfinditem hfindid
    have hb2 : db.bookings.find? (fun x => x.id == bid) = some b := hb
    have hbid : b.id = bid := by
      have := List.find?_some hb2
      simpa using this
    have hex : (findBooking db bid).isSome = true := by rw [hb]; rfl
    have hroomf : db.rooms.find? (fun x => x.number == b.room_number) = some room := hroom
    have hrn : room.number = b.room_number := by
      have := List.find?_some hroomf
      simpa using this
    have hexr : (findRoom db b.room_number).isSome = true := by rw [hroom]; rfl
    have hdnn : 0 ≤ daysBetween b.checkin_at now :=
      Int.fdiv_nonneg (by omega) (by norm_num)
    have hdur : pyOrInt (daysBetween b.checkin_at now) =
        max 1 (daysBetween b.checkin_at now) := pyOrInt_eq_max _ hdnn
    have hvac : vacate_room (setBooking db (checkoutStamp b now)) b.room_number now =
        .ok (setRoom (setBooking db (checkoutStamp b now))
          { room with occupied := false, current_guest_id := none, updated_at := some now }) := by
      unfold vacate_room
      rw [show findRoom (setBooking db (checkoutStamp b now)) b.room_number = some room
        from hroom]
      simp [hocc]
    have hfb1 : findBooking (setBooking db (checkoutStamp b now)) bid =
        some (checkoutStamp b now) :=
      findBooking_setBooking_self _ _ _ (show (checkoutStamp b now).id = bid from hbid) hex
    have hfb3 : findBooking
        (checkoutRoomItem
          (setRoom (setBooking db (checkoutStamp b now))
            { room with occupied := false, current_guest_id := none, updated_at := some now })
          bid (pyOrInt (daysBetween b.checkin_at now)) now) bid =
        some (checkoutStamp b now) := by
      unfold findBooking
      rw [checkoutRoomItem_bookings]
      exact hfb1
    obtain ⟨db', hdb'⟩ := recalc_ok_exists
      (checkoutRoomItem
        (setRoom (setBooking db (checkoutStamp b now))
          { room with occupied := false, current_guest_id := none, updated_at := some now })
        bid (pyOrInt (daysBetween b.checkin_at now)) now) bid now
      (by rw [hfb3]; rfl)
    have hmain : checkout_booking db bid now =
        recalculate_booking_totals
          (checkoutRoomItem
            (setRoom (setBooking db (checkoutStamp b now))
              { room with occupied := false, current_guest_id := none, updated_at := some now })
            bid (pyOrInt (daysBetween b.checkin_at now)) now) bid now := by
      unfold checkout_booking
      rw [hb]
      simp only [hactive, Option.isSome_none, Bool.false_eq_true, if_false]
      rw [hroom, hvac]
    obtain ⟨hrooms', -, hitems', -, htax', hdisc', b0, hb0, hb0'⟩ :=
      recalculate_spec _ db' bid now hdb'
    have hb0eq : b0 = checkoutStamp b now := Option.some.inj (hb0.symm.trans hfb3)
    have hsubeq : recalcSubtotal
        (checkoutRoomItem
          (setRoom (setBooking db (checkoutStamp b now))
            { room with occupied := false, current_guest_id := none, updated_at := some now })
          bid (pyOrInt (daysBetween b.checkin_at now)) now) bid =
        sumItemAmounts (lineItemsOf db' bid) := by
      unfold recalcSubtotal lineItemsOf
      rw [hitems']
    have htaxbase : taxesOf
        (checkoutRoomItem
          (setRoom (setBooking db (checkoutStamp b now))
            { room with occupied := false, current_guest_id := none, updated_at := some now })
          bid (pyOrInt (daysBetween b.checkin_at now)) now) bid =
        taxesOf db bid := by
      unfold taxesOf
      rw [checkoutRoomItem_taxes]
      rfl
    have hdiscbase : discountsOf
        (checkoutRoomItem
          (setRoom (setBooking db (checkoutStamp b now))
            { room with occupied := false, current_guest_id := none, updated_at := some now })
          bid (pyOrInt (daysBetween b.checkin_at now)) now) bid =
        discountsOf db bid := by
      unfold discountsOf
      rw [checkoutRoomItem_discounts]
      rfl
    refine ⟨db', by rw [hmain]; exact hdb', ?_, ?_, ?_, ?_, ?_, ?_⟩
    · refine ⟨{ room with occupied := false, current_guest_id := none, updated_at := some now }, ?_, rfl, rfl⟩
      unfold findRoom
      rw [hrooms', checkoutRoomItem_rooms]
      exact findRoom_setRoom_self _ _ _
        (show ({ room with occupied := false, current_guest_id := none, updated_at := some now } : Room).number = b.room_number from hrn) hexr
    · refine ⟨{ it with
          quantity := ((pyOrInt (daysBetween b.checkin_at now) : ℤ) : ℚ)
          amount := it.unit_price * ((pyOrInt (daysBetween b.checkin_at now) : ℤ) : ℚ)
          updated_at := some now }, ?_, ?_, ?_⟩
      · unfold findLineItem
        rw [hitems']
        unfold checkoutRoomItem
        rw [show (lineItemsOf (setRoom (setBooking db (checkoutStamp b now))
          { room with occupied := false, current_guest_id := none, updated_at := some now }) bid).find? (fun i => i.item_type == "room") = some it
          from hfinditem]
        show (List.find? (fun x => x.id == it.id)
          ((setRoom (setBooking db (checkoutStamp b now))
            { room with occupied := false, current_guest_id := none, updated_at := some now }).lineItems.map
              (fun x => if x.id == it.id then { it with
                quantity := ((pyOrInt (daysBetween b.checkin_at now) : ℤ) : ℚ)
                amount := it.unit_price * ((pyOrInt (daysBetween b.checkin_at now) : ℤ) : ℚ)
                updated_at := some now } else x))) = _
        rw [find?_map_replace (fun x : InvoiceLineItem => x.id == it.id) _ (by simp)]
        rw [show (setRoom (setBooking db (checkoutStamp b now))
          { room with occupied := false, current_guest_id := none, updated_at := some now }).lineItems.find? (fun x => x.id == it.id) = some it
          from hfindid]
        rfl
      · show ((pyOrInt (daysBetween b.checkin_at now) : ℤ) : ℚ) = _
        rw [hdur]
      · show it.unit_price * ((pyOrInt (daysBetween b.checkin_at now) : ℤ) : ℚ) = _
        rw [hdur]
    · rw [hitems']
      unfold checkoutRoomItem
      rw [show (lineItemsOf (setRoom (setBooking db (checkoutStamp b now))
        { room with occupied := false, current_guest_id := none, updated_at := some now }) bid).find? (fun i => i.item_type == "room") = some it
        from hfinditem]
      show ((setRoom (setBooking db (checkoutStamp b now))
        { room with occupied := false, current_guest_id := none, updated_at := some now }).lineItems.map
          (fun x => if x.id == it.id then { it with
            quantity := ((pyOrInt (daysBetween b.checkin_at now) : ℤ) : ℚ)
            amount := it.unit_price * ((pyOrInt (daysBetween b.checkin_at now) : ℤ) : ℚ)
            updated_at := some now } else x)) = _
      rw [hdur]
      rfl
    · rw [htax', htaxbase, hsubeq]
    · rw [hdisc', hdiscbase, hsubeq]
    · refine ⟨_, hb0', ?_, ?_, ?_, ?_, _, _, _, rfl, rfl, rfl, rfl⟩
      · rw [hb0eq]
        rfl
      · show some (recalcSubtotal _ bid) = some (sumItemAmounts (lineItemsOf db' bid))
        rw [hsubeq]
      · show some (recalcTaxTotal _ bid) = some (sumTaxAmounts (taxesOf db' bid))
        rw [recalcTaxTotal_eq, htax', htaxbase, hsubeq]
      · show some (recalcDiscountTotal _ bid) = some (sumDiscountAmounts (discountsOf db' bid))
        rw [recalcDiscountTotal_eq, hdisc', hdiscbase, hsubeq]

/-- A store with an active booking 1 (room 101 at rate 1000, checked in at
time 0) and an already-completed booking 2. -/
def dbC4 : DB :=
  { rooms := [{ number := 101, occupied := true, current_guest_id := some 1 }],
    guests := [{ id := 1, name := "Asha" }],
    bookings := [
      { id := 1, guest_id := 1, room_number := 101, checkin_at := 0,
        price := some 1000, subtotal := some 1000, grand_total := some 1000 },
      { id := 2, guest_id := 1, room_number := 101, checkin_at := 0,
        checkout_at := some 100, price := some 1000 }],
    lineItems := [{ id := 1, booking_id := 1, unit_price := 1000, amount := 1000 }],
    next_id := 3 }

theorem checkout_booking_spec_witness :
    checkout_booking dbC4 2 259200 = .error .conflict ∧
    (∃ db', checkout_booking dbC4 1 259200 = .ok db' ∧
      (∃ room2, findRoom db' 101 = some room2 ∧ room2.occupied = false ∧
        room2.current_guest_id = none) ∧
      (∃ it2, findLineItem db' 1 = some it2 ∧ it2.quantity = 3 ∧ it2.amount = 3000) ∧
      (∃ b2, findBooking db' 1 = some b2 ∧ b2.checkout_at = some 259200 ∧
        b2.subtotal = some 3000 ∧ b2.grand_total = some 3000)) := by
  constructor
  · exact (checkout_booking_spec dbC4 2 259200).1
      { id := 2, guest_id := 1, room_number := 101, checkin_at := 0,
        checkout_at := some 100, price := some 1000 } rfl rfl
  · obtain ⟨db', hok, hroomst, -, -, -, -, -⟩ :=
      (checkout_booking_spec dbC4 1 259200).2
        { id := 1, guest_id := 1, room_number := 101, checkin_at := 0,
          price := some 1000, subtotal := some 1000, grand_total := some 1000 }
        { number := 101, occupied := true, current_guest_id := some 1 }
        { id := 1, booking_id := 1, unit_price := 1000, amount := 1000 }
        rfl rfl (by norm_num) rfl rfl rfl rfl
    have hconc : checkout_booking dbC4 1 259200 =
        .ok ((checkout_booking dbC4 1 259200).toOption.getD dbC4) := rfl
    have hdbeq := hok.symm.trans hconc
    injection hdbeq with hdbeq2
    subst hdbeq2
    refine ⟨_, hok, hroomst, ?_, ?_⟩
    · exact ⟨_, rfl,
        by norm_num [show pyOrInt (daysBetween (0:ℤ) 259200) = 3 from by decide],
        by norm_num [show pyOrInt (daysBetween (0:ℤ) 259200) = 3 from by decide]⟩
    · refine ⟨_, rfl, rfl, ?_, ?_⟩
      · norm_num [show pyOrInt (daysBetween (0:ℤ) 259200) = 3 from by decide,
          sumItemAmounts, lineItemsOf, checkoutRoomItem, checkoutStamp, setRoom,
          setBooking, dbC4]
      · norm_num [show pyOrInt (daysBetween (0:ℤ) 259200) = 3 from by decide,
          sumItemAmounts, lineItemsOf, sumTaxAmounts, taxesOf, sumDiscountAmounts,
          discountsOf, checkoutRoomItem, checkoutStamp, setRoom, setBooking, dbC4]

/-- C5 counterexample: starting from a fresh booking at subtotal 1000, adding
a fixed discount of 5000 drives grand_total to -4000 < 0 after recalculation
— there is no floor at zero. -/
theorem grand_total_negative_cex :
    ∃ db1 bk db2 dc, create_booking dbVacant 1 101 none 0 = .ok (db1, bk) ∧
      add_discount db1 bk.id "Mega" (some 5000) none 1 = .ok (db2, dc) ∧
      ∃ b2 g, findBooking db2 bk.id = some b2 ∧
        b2.grand_total = some g ∧ g < 0 := by
  refine ⟨_, _, _, _, rfl, rfl, _, _, rfl, rfl, ?_⟩
  norm_num [sumItemAmounts, lineItemsOf, sumTaxAmounts, taxesOf,
    sumDiscountAmounts, discountsOf, dbVacant, setRoom, setGuest, setBooking,
    pyOrQ, taxRecalc, discountRecalc]

/-- C5 (amended): after a recalculation, subtotal, tax_total and
discount_total are nonnegative provided the booking's stored line-item
amounts, tax rates, and discount data are nonnegative; grand_total is exactly
subtotal + tax_total - discount_total and may legally be negative when the
discounts exceed subtotal plus taxes (no floor at zero is enforced). -/
theorem recalc_three_totals_nonneg (db db' : DB) (bid : Nat) (now : ℤ)
    (h : recalculate_booking_totals db bid now = .ok db')
    (hitems : ∀ i ∈ lineItemsOf db bid, 0 ≤ i.amount)
    (hrates : ∀ t ∈ taxesOf db bid, 0 ≤ t.rate)
    (hdiscs : ∀ dd ∈ discountsOf db bid, 0 ≤ dd.amount ∧
      ∀ p, dd.percentage = some p → 0 ≤ p) :
    ∃ b, findBooking db' bid = some b ∧
      (∃ s, b.subtotal = some s ∧ 0 ≤ s) ∧
      (∃ t, b.tax_total = some t ∧ 0 ≤ t) ∧
      (∃ d, b.discount_total = some d ∧ 0 ≤ d) ∧
      (∃ s t d, b.subtotal = some s ∧ b.tax_total = some t ∧
        b.discount_total = some d ∧ b.grand_total = some (s + t - d)) := by
  obtain ⟨-, -, -, -, -, -, b, hb, hb'⟩ := recalculate_spec db db' bid now h
  have hs : 0 ≤ recalcSubtotal db bid := by
    unfold recalcSubtotal sumItemAmounts
    refine List.sum_nonneg ?_
    intro a ha
    obtain ⟨i, hi, rfl⟩ := List.mem_map.mp ha
    exact hitems i hi
  have ht : 0 ≤ recalcTaxTotal db bid := by
    rw [recalcTaxTotal_eq]
    unfold sumTaxAmounts
    refine List.sum_nonneg ?_
    intro a ha
    obtain ⟨t0, ht0, rfl⟩ := List.mem_map.mp ha
    obtain ⟨t1, ht1, rfl⟩ := List.mem_map.mp ht0
    show 0 ≤ recalcSubtotal db bid * (t1.rate / 100)
    exact mul_nonneg hs (div_nonneg (hrates t1 ht1) (by norm_num))
  have hd : 0 ≤ recalcDiscountTotal db bid := by
    rw [recalcDiscountTotal_eq]
    unfold sumDiscountAmounts
    refine List.sum_nonneg ?_
    intro a ha
    obtain ⟨d0, hd0, rfl⟩ := List.mem_map.mp ha
    obtain ⟨d1, hd1, rfl⟩ := List.mem_map.mp hd0
    cases hp : d1.percentage with
    | none =>
      show (0:ℚ) ≤ (discountRecalc (recalcSubtotal db bid) d1).amount
      unfold discountRecalc
      rw [hp]
      exact (hdiscs d1 hd1).1
    | some p =>
      show (0:ℚ) ≤ (discountRecalc (recalcSubtotal db bid) d1).amount
      unfold discountRecalc
      rw [hp]
      exact mul_nonneg hs (div_nonneg ((hdiscs d1 hd1).2 p hp) (by norm_num))
  exact ⟨_, hb', ⟨_, rfl, hs⟩, ⟨_, rfl, ht⟩, ⟨_, rfl, hd⟩, _, _, _, rfl, rfl, rfl, rfl⟩

theorem recalc_three_totals_nonneg_witness :
    recalculate_booking_totals dbBase 1 7 = Except.ok dbBaseRecalc ∧
    (∃ b, findBooking dbBaseRecalc 1 = some b ∧
      (∃ s, b.subtotal = some s ∧ 0 ≤ s) ∧
      (∃ t, b.tax_total = some t ∧ 0 ≤ t) ∧
      (∃ d, b.discount_total = some d ∧ 0 ≤ d) ∧
      (∃ s t d, b.subtotal = some s ∧ b.tax_total = some t ∧
        b.discount_total = some d ∧ b.grand_total = some (s + t - d))) :=
  ⟨by rfl, recalc_three_totals_nonneg dbBase dbBaseRecalc 1 7 (by rfl)
    (by decide) (by decide) (by decide)⟩

-- The room-occupancy invariant (spec section 3): occupied = false implies no
-- current guest reference.

def roomsInvList (l : List Room) : Prop :=
  ∀ r ∈ l, r.occupied = false → r.current_guest_id = none

/-- The invariant `occupied == false  =>  current_guest == null` over every
room of the store. -/
def roomsInv (db : DB) : Prop := roomsInvList db.rooms

/-- Replacing one room by a row that itself satisfies the invariant preserves
the invariant. -/
theorem roomsInvList_mapSet (l : List Room) (r : Room)
    (hinv : roomsInvList l)
    (hr : r.occupied = false → r.current_guest_id = none) :
    roomsInvList (l.map (fun x => if x.number == r.number then r else x)) := by
  intro x hx
  obtain ⟨y, hy, hxy⟩ := List.mem_map.mp hx
  by_cases hc : (y.number == r.number) = true
  · rw [if_pos hc] at hxy
    subst hxy
    exact hr
  · rw [if_neg hc] at hxy
    subst hxy
    exact hinv y hy

/-- `create_room` preserves the invariant: the new row is vacant with no
guest. -/
theorem create_room_inv (db : DB) (n : Nat) (rt : String) (rate : ℚ)
    (now : ℤ) (db' : DB) (hinv : roomsInv db)
    (h : create_room db n rt rate now = .ok db') : roomsInv db' := by
  unfold create_room at h
  by_cases hc : (db.rooms.find? (fun r => r.number == n)).isSome = true
  · rw [if_pos hc] at h
    exact absurd h (by simp)
  · rw [if_neg hc] at h
    simp only [Except.ok.injEq] at h
    subst h
    intro x hx
    rcases List.mem_append.mp hx with hx1 | hx2
    · exact hinv x hx1
    · intro hocc
      have hx3 : x = { number := n, room_type := rt, rate_per_night := rate, occupied := false, created_at := now } := by
        simpa using hx2
      subst hx3
      rfl

/-- `occupy_room` preserves the invariant: the new row is occupied. -/
theorem occupy_room_inv (db : DB) (n gid : Nat) (now : ℤ) (db' : DB)
    (hinv : roomsInv db) (h : occupy_room db n gid now = .ok db') :
    roomsInv db' := by
  unfold occupy_room at h
  cases hr : findRoom db n with
  | none => rw [hr] at h; exact absurd h (by simp)
  | some room =>
    rw [hr] at h
    by_cases hc : room.occupied = true
    · simp [hc] at h
    · simp only [hc, Bool.false_eq_true, if_false, Except.ok.injEq] at h
      subst h
      exact roomsInvList_mapSet _ _ hinv (by intro hh; simp at hh)

/-- `vacate_room` preserves the invariant: the new row is vacant with no
guest. -/
theorem vacate_room_inv (db : DB) (n : Nat) (now : ℤ) (db' : DB)
    (hinv : roomsInv db) (h : vacate_room db n now = .ok db') :
    roomsInv db' := by
  unfold vacate_room at h
  cases hr : findRoom db n with
  | none => rw [hr] at h; exact absurd h (by simp)
  | some room =>
    rw [hr] at h
    by_cases hc : (!room.occupied) = true
    · simp [hc] at h
    · simp only [hc, Bool.false_eq_true, if_false, Except.ok.injEq] at h
      subst h
      exact roomsInvList_mapSet _ _ hinv (by intro hh; rfl)

/-- `create_booking` preserves the invariant: the only room write marks the
room occupied with the guest set. -/
theorem create_booking_inv (db : DB) (gid rn : Nat) (p : Option ℚ) (now : ℤ)
    (db' : DB) (bk : Booking) (hinv : roomsInv db)
    (h : create_booking db gid rn p now = .ok (db', bk)) : roomsInv db' := by
  unfold create_booking at h
  cases hg : findGuest db gid with
  | none => rw [hg] at h; exact absurd h (by simp)
  | some g =>
    rw [hg] at h
    cases hr : findRoom db rn with
    | none => rw [hr] at h; exact absurd h (by simp)
    | some room =>
      rw [hr] at h
      by_cases hc : room.occupied = true
      · simp [hc] at h
      · simp only [hc, Bool.false_eq_true, if_false, Except.ok.injEq, Prod.mk.injEq] at h
        obtain ⟨h1, -⟩ := h
        subst h1
        show roomsInvList _
        exact roomsInvList_mapSet _ _ hinv (by intro hh; simp at hh)

/-- `checkout_booking` preserves the invariant: the only room write is the
vacate. -/
theorem checkout_booking_inv (db : DB) (bid : Nat) (now : ℤ) (db' : DB)
    (hinv : roomsInv db) (h : checkout_booking db bid now = .ok db') :
    roomsInv db' := by
  unfold checkout_booking at h
  cases hb : findBooking db bid with
  | none => rw [hb] at h; exact absurd h (by simp)
  | some b =>
    rw [hb] at h
    by_cases hc : b.checkout_at.isSome = true
    · simp [hc] at h
    · simp only [hc, Bool.false_eq_true, if_false] at h
      cases hr : findRoom db b.room_number with
      | none => rw [hr] at h; exact absurd h (by simp)
      | some room =>
        rw [hr] at h
        cases hv : vacate_room (setBooking db (checkoutStamp b now))
            b.room_number now with
        | error e => rw [hv] at h; exact absurd h (by simp)
        | ok db2 =>
          rw [hv] at h
          have hinv2 : roomsInv db2 := vacate_room_inv _ _ _ _
            (show roomsInv (setBooking db (checkoutStamp b now)) from hinv) hv
          obtain ⟨hrooms, -, -, -, -, -, -, -, -⟩ :=
            recalculate_spec _ db' bid now h
          show roomsInvList db'.rooms
          rw [hrooms, checkoutRoomItem_rooms]
          exact hinv2

/-- `delete_room` preserves the invariant (it removes a row). -/
theorem delete_room_inv (db : DB) (n : Nat) (db' : DB)
    (hinv : roomsInv db) (h : delete_room db n = .ok db') : roomsInv db' := by
  unfold delete_room at h
  cases hr : findRoom db n with
  | none => rw [hr] at h; exact absurd h (by simp)
  | some room =>
    rw [hr] at h
    by_cases hc : room.occupied = true
    · simp [hc] at h
    · simp only [hc, Bool.false_eq_true, if_false, Except.ok.injEq] at h
      subst h
      intro x hx
      exact hinv x (List.mem_of_mem_filter hx)

/-- `delete_booking` preserves the invariant: the only room write is the
best-effort vacate. -/
theorem delete_booking_inv (db : DB) (bid : Nat) (now : ℤ) (db' : DB)
    (hinv : roomsInv db) (h : delete_booking db bid now = .ok db') :
    roomsInv db' := by
  unfold delete_booking at h
  cases hb : findBooking db bid with
  | none => rw [hb] at h; exact absurd h (by simp)
  | some b =>
    rw [hb] at h
    simp only [Except.ok.injEq] at h
    subst h
    have hinv1 : roomsInv (if b.checkout_at.isNone then
        (match vacate_room db b.room_number now with
         | .ok d => d
         | .error _ => db) else db) := by
      by_cases hco : b.checkout_at.isNone = true
      · rw [if_pos hco]
        cases hv : vacate_room db b.room_number now with
        | ok d => exact vacate_room_inv _ _ _ _ hinv hv
        | error e => exact hinv
      · rw [if_neg hco]
        exact hinv
    exact hinv1

/-- C6 (amended): the invariant `occupied == false implies current_guest is
null` is preserved by create_room, occupy_room, vacate_room, create_booking,
checkout_booking, delete_room and delete_booking; `update_room` is the
exception, since RoomUpdate exposes occupied and current_guest_id as
independent writable fields (counterexample separate). -/
theorem room_invariant_preserved (db : DB) (now : ℤ) (hinv : roomsInv db) :
    (∀ n rt rate db', create_room db n rt rate now = .ok db' → roomsInv db') ∧
    (∀ n gid db', occupy_room db n gid now = .ok db' → roomsInv db') ∧
    (∀ n db', vacate_room db n now = .ok db' → roomsInv db') ∧
    (∀ gid rn p x, create_booking db gid rn p now = .ok x → roomsInv x.1) ∧
    (∀ bid db', checkout_booking db bid now = .ok db' → roomsInv db') ∧
    (∀ n db', delete_room db n = .ok db' → roomsInv db') ∧
    (∀ bid db', delete_booking db bid now = .ok db' → roomsInv db') :=
  ⟨fun n rt rate db' h => create_room_inv db n rt rate now db' hinv h,
   fun n gid db' h => occupy_room_inv db n gid now db' hinv h,
   fun n db' h => vacate_room_inv db n now db' hinv h,
   fun gid rn p x h => create_booking_inv db gid rn p now x.1 x.2 hinv
     (by rw [h]),
   fun bid db' h => checkout_booking_inv db bid now db' hinv h,
   fun n db' h => delete_room_inv db n db' hinv h,
   fun bid db' h => delete_booking_inv db bid now db' hinv h⟩

/-- C6 counterexample: `update_room` with only `occupied := false` on an
occupied room leaves `current_guest_id` set, breaking the invariant. -/
theorem update_room_breaks_invariant_cex :
    roomsInv dbOcc ∧
    ∃ db', update_room dbOcc 101 { occupied := some false } 9 = .ok db' ∧
      ∃ r, findRoom db' 101 = some r ∧ r.occupied = false ∧
        ¬(r.current_guest_id = none) := by
  refine ⟨by unfold roomsInv roomsInvList; decide, _, rfl, _, rfl, rfl, by decide⟩

theorem room_invariant_preserved_witness :
    roomsInv dbC9 ∧
    (∃ db', create_room dbC9 104 "Standard" 800 3 = .ok db' ∧ roomsInv db') ∧
    (∃ db', occupy_room dbC9 103 1 3 = .ok db' ∧ roomsInv db') ∧
    (∃ db', vacate_room dbC9 101 3 = .ok db' ∧ roomsInv db') ∧
    (∃ x, create_booking dbC9 1 103 none 3 = .ok x ∧ roomsInv x.1) ∧
    (∃ db', checkout_booking dbC9 1 3 = .ok db' ∧ roomsInv db') ∧
    (∃ db', delete_room dbC9 103 = .ok db' ∧ roomsInv db') ∧
    (∃ db', delete_booking dbC9 2 3 = .ok db' ∧ roomsInv db') := by
  obtain ⟨c1, c2, c3, c4, c5, c6, c7⟩ :=
    room_invariant_preserved dbC9 3 (by unfold roomsInv roomsInvList; decide)
  exact ⟨by unfold roomsInv roomsInvList; decide,
    ⟨_, rfl, c1 104 "Standard" 800 _ rfl⟩,
    ⟨_, rfl, c2 103 1 _ rfl⟩,
    ⟨_, rfl, c3 101 _ rfl⟩,
    ⟨_, rfl, c4 1 103 none _ rfl⟩,
    ⟨_, rfl, c5 1 _ rfl⟩,
    ⟨_, rfl, c6 103 _ rfl⟩,
    ⟨_, rfl, c7 2 _ rfl⟩⟩
